import Mathlib

/-! # Blog back end: posts, visits, analytics and retention

A shallow embedding of the request handlers of `src/server.js`.

Modelling conventions.

* The two SQLite tables are lists of rows in storage (insertion) order.
* `posts.created_at` / `posts.updated_at` hold `new Date().toISOString()`, a fixed-width
  text whose lexicographic order is chronological order; they are modelled by the
  number of milliseconds they denote.
* `visits.timestamp` holds SQLite's `CURRENT_TIMESTAMP`, the fixed-width text
  `YYYY-MM-DD HH:MM:SS` (UTC); it is modelled by the number of seconds it denotes, and
  `DATE(timestamp)` (the text `YYYY-MM-DD`) by the day number `timestamp / 86400`.
* Request fields that the handlers read as text are `Option String` (`none` is an
  absent field); query parameters passed through `parseInt` are `Option Int`, the
  integer that `parseInt` reads (`none` is `NaN`).
* The numbers of the listing are JavaScript numbers: the page, the limit and what is
  computed from them are rounded to the nearest double (`toDouble`), and a limit or
  offset that is not a 64-bit integer makes the statement fail.  The `days` parameter
  of analytics and cleanup is only spliced into a statement as text and echoed in a
  message; it is kept as the integer read.
* The clock and the UUID generator are inputs of the handlers.  The storage failures
  modelled are a violated `PRIMARY KEY`, a limit or offset out of range, and a
  statement that SQLite does not compile.
* Timestamps count from 1970-01-01 00:00:00 UTC; the earliest instant SQLite can
  represent is 210866760000 seconds before that.
* The package `jsonwebtoken` is a parameter of the authentication handlers; what is
  assumed of it is stated where it is used.
-/

namespace Cosmos

/-! ## Data model -/

/-- A row of the table `posts`. -/
structure Post where
  id : String
  title : String
  video : String
  description : String
  created_at : Nat
  updated_at : Nat
deriving DecidableEq, Repr

/-- A row of the table `visits`. -/
structure Visit where
  id : Nat
  ip : String
  user_agent : String
  page : String
  timestamp : Nat
deriving DecidableEq, Repr

/-- What a handler sends back: `res.status(s).json(body)` or `res.status(s).json({error})`. -/
inductive Response (α : Type) where
  | ok (status : Nat) (body : α)
  | error (status : Nat) (message : String)
deriving DecidableEq, Repr

/-! ## JavaScript and SQL helpers -/

/-- The idiom `parseInt(q) || d`: `NaN` and `0` are falsy and give the default `d`. -/
def parseIntOr (q : Option Int) (d : Int) : Int :=
  match q with
  | none => d
  | some n => if n = 0 then d else n

/-- JavaScript truthiness of a text field: absent and empty are falsy. -/
def truthy (s : Option String) : Bool :=
  match s with
  | none => false
  | some t => t != ""

/-- SQL `ORDER BY key DESC` on a table with an index on `key` (server.js 87-88).  SQLite
walks the index backwards: rows with equal keys come newest row first, the reverse of
storage order. -/
def orderByDesc {α : Type} (key : α → Nat) (rows : List α) : List α :=
  List.insertionSort (fun a b => key b ≤ key a) rows.reverse

/-- The number of low bits that an integer of magnitude `m` has beyond the 53 bits of a
double's significand (`fuel` bounds the count). -/
def excessBits : Nat → Nat → Nat
  | 0, _ => 0
  | fuel + 1, m => if m < 2 ^ 53 then 0 else excessBits fuel (m / 2) + 1

/-- The JavaScript number for an integer: the nearest double, a tie going to the even
significand.  Integers below `2 ^ 53` in magnitude are kept.  (Magnitudes from `2 ^ 1024`
on stand for `Infinity`; like it, they are never accepted as a limit or offset.) -/
def toDouble (n : Int) : Int :=
  let m := n.natAbs
  if m < 2 ^ 53 then n
  else
    let shift := excessBits m m
    let q := m / 2 ^ shift
    let r := m % 2 ^ shift
    let up := decide (2 ^ shift < 2 * r) || (decide (2 * r = 2 ^ shift) && decide (q % 2 = 1))
    let rounded := (if up then q + 1 else q) * 2 ^ shift
    if n < 0 then -(rounded : Int) else (rounded : Int)

/-- What SQLite accepts as the value of `LIMIT` or `OFFSET`: a number that converts to a
64-bit integer without loss.  The numbers here are whole, so the test is the range; a
double at either end of the range is refused. -/
def fitsInt64 (n : Int) : Bool :=
  decide (-(2 ^ 63) < n ∧ n < 2 ^ 63)

/-- SQL `LIMIT limit OFFSET offset` as SQLite runs it: a negative offset is no offset, a
negative limit is no limit. -/
def sqlLimitOffset {α : Type} (limit offset : Int) (rows : List α) : List α :=
  let rest := rows.drop offset.toNat
  if limit < 0 then rest else rest.take limit.toNat

/-- The JavaScript expression `Math.ceil(a / b)` on integers, computed without leaving the
integers: the ceiling of `a / b` is minus the floor of `-a / b`. -/
def ceilDiv (a b : Int) : Int :=
  if 0 < b then -((-a) / b) else -(a / (-b))

/-! ## Post store: listing -/

/-- The `pagination` object of `GET /api/posts`. -/
structure Pagination where
  currentPage : Int
  totalPages : Int
  totalPosts : Nat
  hasNext : Bool
  hasPrev : Bool
deriving DecidableEq, Repr

/-- The body of `GET /api/posts`. -/
structure PostList where
  posts : List Post
  pagination : Pagination
deriving DecidableEq, Repr

/-- The metadata computed in the inner callback of `GET /api/posts` (server.js 135-144).
The quotient `total / limit` is rounded up exactly (as the doubles do for a total below
`2 ^ 53`); the product `page * limit` is a double. -/
def paginate (page limit : Int) (total : Nat) : Pagination :=
  { currentPage := page
    totalPages := ceilDiv (total : Int) limit
    totalPosts := total
    hasNext := decide (toDouble (page * limit) < (total : Int))
    hasPrev := decide (page > 1) }

/-- The handler `GET /api/posts` (server.js 115-147).  `page`, `limit` and `offset` are
JavaScript numbers.  When the limit or the offset bound to the statement is not a 64-bit
integer, SQLite refuses it and the first callback answers 500 with the message of the
storage engine. -/
def listPosts (page limit : Option Int) (store : List Post) : Response PostList :=
  let page := parseIntOr (page.map toDouble) 1
  let limit := parseIntOr (limit.map toDouble) 10
  let offset := toDouble (toDouble (page - 1) * limit)
  if !(fitsInt64 limit && fitsInt64 offset) then
    Response.error 500 "SQLITE_MISMATCH: datatype mismatch"
  else
    let posts := sqlLimitOffset limit offset (orderByDesc Post.created_at store)
    let total := store.length
    Response.ok 200 { posts := posts, pagination := paginate page limit total }

/-- Twelve posts, created one after the other. -/
def twelvePosts : List Post :=
  (List.range 12).map fun i =>
    { id := toString i, title := "t", video := "v", description := "d",
      created_at := 1000 + i, updated_at := 1000 + i }

/-- The posts of a successful listing (empty for an error response). -/
def listedPosts (r : Response PostList) : List Post :=
  match r with
  | Response.ok _ body => body.posts
  | Response.error _ _ => []

/-- The pagination of a successful listing. -/
def listedPagination (r : Response PostList) : Option Pagination :=
  match r with
  | Response.ok _ body => some body.pagination
  | Response.error _ _ => none

/-! ## Post store: create and get -/

/-- The fields `{ title, video, description }` read from `req.body`. -/
structure PostFields where
  title : Option String
  video : Option String
  description : Option String
deriving DecidableEq, Repr

/-- The text of a field that passed the truthiness test. -/
def fieldText (s : Option String) : String :=
  match s with
  | none => ""
  | some t => t

/-- The handler `POST /api/posts` after authentication (server.js 163-190): the response
and the table `posts` after the request.  `postId` is the value of `uuidv4()` and `now`
the clock reading.  The `INSERT` fails, and the handler answers 500 with the message of
the storage engine, when a row already has the id (`id TEXT PRIMARY KEY`). -/
def createPost (postId : String) (now : Nat) (body : PostFields) (store : List Post) :
    Response Post × List Post :=
  if !truthy body.title || !truthy body.video || !truthy body.description then
    (Response.error 400 "Все поля обязательны для заполнения", store)
  else if store.any (fun p => p.id == postId) then
    (Response.error 500 "SQLITE_CONSTRAINT: UNIQUE constraint failed: posts.id", store)
  else
    let post : Post :=
      { id := postId, title := fieldText body.title, video := fieldText body.video,
        description := fieldText body.description, created_at := now, updated_at := now }
    (Response.ok 201 post, store ++ [post])

/-- The handler `GET /api/posts/:id` (server.js 150-160). -/
def getPost (id : String) (store : List Post) : Response Post :=
  match store.find? (fun p => p.id == id) with
  | some post => Response.ok 200 post
  | none => Response.error 404 "Пост не найден"

/-- A field that is missing or empty. -/
def missingOrEmpty (s : Option String) : Prop :=
  s = none ∨ s = some ""

/-! ## Post store: update and delete -/

/-- The body of a successful `PUT /api/posts/:id`:
`{ id, title, video, description, updated_at }`. -/
structure UpdatedPost where
  id : String
  title : String
  video : String
  description : String
  updated_at : Nat
deriving DecidableEq, Repr

/-- The row that `UPDATE posts SET title = ?, video = ?, description = ?, updated_at = ?`
leaves in place of a row it matches. -/
def Post.rewrite (p : Post) (title video description : String) (now : Nat) : Post :=
  { p with title := title, video := video, description := description, updated_at := now }

/-- The handler `PUT /api/posts/:id` after authentication (server.js 193-223): the response
and the table `posts` after the request.  `this.changes` is the number of rows the
`UPDATE ... WHERE id = ?` matched. -/
def updatePost (id : String) (now : Nat) (body : PostFields) (store : List Post) :
    Response UpdatedPost × List Post :=
  if !truthy body.title || !truthy body.video || !truthy body.description then
    (Response.error 400 "Все поля обязательны для заполнения", store)
  else
    let after := store.map fun p =>
      if p.id == id then
        p.rewrite (fieldText body.title) (fieldText body.video) (fieldText body.description) now
      else p
    let changes := store.countP fun p => p.id == id
    if changes = 0 then
      (Response.error 404 "Пост не найден", after)
    else
      (Response.ok 200
        { id := id, title := fieldText body.title, video := fieldText body.video,
          description := fieldText body.description, updated_at := now }, after)

/-- The table after the `UPDATE` of `updatePost`, for fields that pass validation. -/
def updatedTable (id : String) (now : Nat) (title video description : String)
    (store : List Post) : List Post :=
  store.map fun p => if p.id == id then p.rewrite title video description now else p

/-- The handler `DELETE /api/posts/:id` after authentication (server.js 226-238): the
response (its body is the `message`) and the table `posts` after the request.
`this.changes` is the number of rows the `DELETE ... WHERE id = ?` removed. -/
def deletePost (id : String) (store : List Post) : Response String × List Post :=
  let after := store.filter fun p => !(p.id == id)
  let changes := store.countP fun p => p.id == id
  if changes = 0 then
    (Response.error 404 "Пост не найден", after)
  else
    (Response.ok 200 "Пост успешно удален", after)

/-! ## Visits: dates -/

/-- SQL `DATE(timestamp)` (and `DATE('now')` on the clock): the calendar day of an
instant, as a day number. -/
def dateOf (ts : Nat) : Nat := ts / 86400

/-- SQL `DATE('now', '-${days} days')`: the date `days` days before the current date.
For a negative `days` the text spliced into the statement is `--N days`, which SQLite
does not accept as a modifier, and the value is `NULL` (`none`).  It is `NULL` too when
the instant `days` days before now is earlier than the earliest instant SQLite can
represent, 210866760000 seconds before 1970. -/
def dateNowMinusDays (now : Nat) (days : Int) : Option Int :=
  if days < 0 then none
  else if (now : Int) + 210866760000 < days * 86400 then none
  else some ((dateOf now : Int) - days)

/-- The `WHERE` condition `timestamp < cutoff`, `cutoff` a date.  This is a comparison of
texts: `YYYY-MM-DD HH:MM:SS` is below `YYYY-MM-DD` exactly when its date part is an
earlier date (with equal date parts the longer text is the greater).  A comparison with
`NULL` is not true. -/
def timestampBefore (ts : Nat) (cutoff : Option Int) : Bool :=
  match cutoff with
  | none => false
  | some d => decide ((dateOf ts : Int) < d)

/-- The `WHERE` condition `timestamp >= cutoff`, `cutoff` a date (see `timestampBefore`). -/
def timestampNotBefore (ts : Nat) (cutoff : Option Int) : Bool :=
  match cutoff with
  | none => false
  | some d => decide (d ≤ (dateOf ts : Int))

/-! ## Retention sweeper -/

/-- The two numbers spliced into the message of `DELETE /api/analytics/cleanup`:
`this.changes` and `days`. -/
structure CleanupReport where
  changes : Nat
  days : Int
deriving DecidableEq, Repr

/-- The handler `DELETE /api/analytics/cleanup` (server.js 325-340): the response and the
table `visits` after the `DELETE`. -/
def cleanupVisits (days : Option Int) (now : Nat) (visits : List Visit) :
    Response CleanupReport × List Visit :=
  let days := parseIntOr days 12
  let cutoff := dateNowMinusDays now days
  let deleted := visits.filter fun v => timestampBefore v.timestamp cutoff
  let kept := visits.filter fun v => !timestampBefore v.timestamp cutoff
  (Response.ok 200 { changes := deleted.length, days := days }, kept)

/-! ## Analytics aggregator -/

/-- A row of the `daily` result: `DATE(timestamp) as date, COUNT(*) as count`. -/
structure DailyCount where
  date : Nat
  count : Nat
deriving DecidableEq, Repr

/-- A row of the `recent` result: `SELECT ip, user_agent, page, timestamp`. -/
structure RecentVisit where
  ip : String
  user_agent : String
  page : String
  timestamp : Nat
deriving DecidableEq, Repr

/-- The projection `SELECT ip, user_agent, page, timestamp` of a visit. -/
def Visit.toRecent (v : Visit) : RecentVisit :=
  { ip := v.ip, user_agent := v.user_agent, page := v.page, timestamp := v.timestamp }

/-- The body of `GET /api/analytics`. -/
structure Analytics where
  total : Nat
  unique : Nat
  today : Nat
  daily : List DailyCount
  recent : List RecentVisit
deriving DecidableEq, Repr

/-- The statement `SELECT COUNT(DISTINCT ip) as unique FROM visits` (server.js 271).
`unique` is a reserved word of SQLite and cannot be a column alias: SQLite does not
compile the statement, whatever the table holds, and the callback gets the error. -/
def countUniqueVisitors (_visits : List Visit) : Except String Nat :=
  Except.error "SQLITE_ERROR: near \"unique\": syntax error"

/-- SQL `SELECT DATE(timestamp) as date, COUNT(*) as count FROM rows
GROUP BY DATE(timestamp) ORDER BY date`: one row for each date some row has, in ascending
order of the date, with the number of rows of that date. -/
def groupByDate (rows : List Visit) : List DailyCount :=
  (((rows.map fun v => dateOf v.timestamp).dedup).insertionSort (· ≤ ·)).map
    fun d => { date := d, count := rows.countP fun v => decide (dateOf v.timestamp = d) }

/-- The handler `GET /api/analytics` after authentication (server.js 261-322).  The
statements run one inside the callback of the other, at one reading of the clock; a
statement that fails ends the request with 500 and the message of the storage engine
(server.js 272-274), and the statements after it are not run. -/
def analytics (days : Option Int) (now : Nat) (visits : List Visit) : Response Analytics :=
  let days := parseIntOr days 7
  let total := visits.length
  match countUniqueVisitors visits with
  | Except.error message => Response.error 500 message
  | Except.ok unique =>
    let today := visits.countP fun v => decide (dateOf v.timestamp = dateOf now)
    let daily := groupByDate
      (visits.filter fun v => timestampNotBefore v.timestamp (dateNowMinusDays now days))
    let recent := ((orderByDesc Visit.timestamp visits).take 10).map Visit.toRecent
    Response.ok 200
      { total := total, unique := unique, today := today, daily := daily, recent := recent }

/-- The body of a successful analytics response. -/
def analyticsBody (r : Response Analytics) : Option Analytics :=
  match r with
  | Response.ok _ body => some body
  | Response.error _ _ => none

/-- Three visits from one address on day 20 and two from another on day 19. -/
def fiveVisits : List Visit :=
  [ { id := 1, ip := "10.0.0.2", user_agent := "", page := "/", timestamp := 19 * 86400 + 50 },
    { id := 2, ip := "10.0.0.2", user_agent := "", page := "/", timestamp := 19 * 86400 + 60 },
    { id := 3, ip := "10.0.0.1", user_agent := "", page := "/", timestamp := 20 * 86400 + 10 },
    { id := 4, ip := "10.0.0.1", user_agent := "", page := "/", timestamp := 20 * 86400 + 20 },
    { id := 5, ip := "10.0.0.1", user_agent := "", page := "/", timestamp := 20 * 86400 + 30 } ]

/-! ## Visit recorder -/

/-- The fields `{ ip, userAgent, page }` read from `req.body`. -/
structure VisitFields where
  ip : Option String
  userAgent : Option String
  page : Option String
deriving DecidableEq, Repr

/-- The idiom `s || ''` on a text field. -/
def orEmpty (s : Option String) : String :=
  match s with
  | none => ""
  | some t => t

/-- The handler `POST /api/visits` (server.js 241-258): the response (its body is the
`message`) and the table `visits` after the request.  `rowid` is the key that
`AUTOINCREMENT` gives the new row and `now` the reading of the clock that
`DEFAULT CURRENT_TIMESTAMP` stores. -/
def recordVisit (rowid : Nat) (now : Nat) (body : VisitFields) (visits : List Visit) :
    Response String × List Visit :=
  if !truthy body.ip then
    (Response.error 400 "IP адрес обязателен", visits)
  else
    (Response.ok 201 "Посещение записано",
      visits ++ [{ id := rowid, ip := fieldText body.ip, user_agent := orEmpty body.userAgent,
                   page := orEmpty body.page, timestamp := now }])

/-! ## Export -/

/-- The two tables. -/
structure Store where
  posts : List Post
  visits : List Visit
deriving DecidableEq, Repr

/-- The body of `GET /api/export`: `{ posts?, visits?, exportDate }`; a table that the
body does not hold is `none`. -/
structure ExportBody where
  posts : Option (List Post)
  visits : Option (List Visit)
  exportDate : Nat
deriving DecidableEq, Repr

/-- The handler `GET /api/export` after authentication (server.js 343-380).  `scope` is
`req.query.type`; the handler only reads the tables. -/
def exportData (scope : Option String) (now : Nat) (store : Store) : Response ExportBody :=
  let kind := if truthy scope then fieldText scope else "all"
  if kind = "posts" then
    Response.ok 200
      { posts := some (orderByDesc Post.created_at store.posts), visits := none,
        exportDate := now }
  else if kind = "visits" then
    Response.ok 200
      { posts := none, visits := some (orderByDesc Visit.timestamp store.visits),
        exportDate := now }
  else
    Response.ok 200
      { posts := some (orderByDesc Post.created_at store.posts),
        visits := some (orderByDesc Visit.timestamp store.visits), exportDate := now }

/-! ## Authentication -/

/-- The decoded payload of a token: the claims `{ role, username }` given to `jwt.sign`
and the times `iat`, `exp` (seconds) that `expiresIn` makes the package add. -/
structure Claims where
  role : String
  username : String
  iat : Nat
  exp : Nat
deriving DecidableEq, Repr

/-- The two functions of the package `jsonwebtoken` that the server calls.  The package is
not part of the repository; the handlers take it as a parameter.  Times are in seconds. -/
structure JwtLibrary where
  /-- The call `jwt.sign({ role, username }, secret, { expiresIn })` at time `clock`. -/
  sign : (role username secret : String) → (expiresIn clock : Nat) → String
  /-- The call `jwt.verify(token, secret, callback)` at time `clock`: the decoded payload
  handed to the callback, or `none` when the callback gets an error. -/
  verify : (token secret : String) → (clock : Nat) → Option Claims

/-- The expression `process.env.JWT_SECRET || 'cosmos_secret_key'`. -/
def jwtSecret (envSecret : Option String) : String :=
  if truthy envSecret then fieldText envSecret else "cosmos_secret_key"

/-- JavaScript `text.split(' ')` on the characters of a text: the pieces between single
spaces, empty pieces included. -/
def splitOnSpace : List Char → List (List Char)
  | [] => [[]]
  | c :: cs =>
    if c = ' ' then [] :: splitOnSpace cs
    else
      match splitOnSpace cs with
      | [] => [[c]]
      | w :: ws => (c :: w) :: ws

/-- The expression `authHeader && authHeader.split(' ')[1]` (server.js 96-97): `none` is
`undefined`. -/
def bearerToken (authorization : Option String) : Option String :=
  match authorization with
  | none => none
  | some header =>
    if header = "" then some ""
    else ((splitOnSpace header.data)[1]?).map String.mk

/-- What the middleware does with a request: answer it itself, or call `next()` with
`req.user` set. -/
inductive AuthOutcome where
  | rejected (status : Nat) (message : String)
  | accepted (user : Claims)
deriving DecidableEq, Repr

/-- The middleware `authenticateToken` (server.js 95-110). -/
def authenticateToken (jwt : JwtLibrary) (envSecret : Option String) (clock : Nat)
    (authorization : Option String) : AuthOutcome :=
  let token := bearerToken authorization
  if !truthy token then
    AuthOutcome.rejected 401 "Токен доступа не предоставлен"
  else
    match jwt.verify (fieldText token) (jwtSecret envSecret) clock with
    | none => AuthOutcome.rejected 403 "Недействительный токен"
    | some user => AuthOutcome.accepted user

/-- The body of a successful `POST /api/auth/login`: `{ token, role }`. -/
structure LoginBody where
  token : String
  role : String
deriving DecidableEq, Repr

/-- What a request reads besides its own fields and the tables: `process.env.JWT_SECRET`,
the JavaScript clock (milliseconds), the clock of the storage engine (seconds) and the
next value of `uuidv4()`. -/
structure Env where
  envSecret : Option String
  jsClock : Nat
  dbClock : Nat
  uuid : String
deriving DecidableEq, Repr

/-- The handler `POST /api/auth/login` (server.js 383-397).  The package reads the clock in
whole seconds. -/
def login (jwt : JwtLibrary) (env : Env) (password : Option String) : Response LoginBody :=
  if password = some "r@@t00" then
    Response.ok 200
      { token := jwt.sign "admin" "admin" (jwtSecret env.envSecret) 86400 (env.jsClock / 1000),
        role := "admin" }
  else
    Response.error 401 "Неверный пароль"

/-- The routes registered with `authenticateToken`, with what each reads from the
request. -/
inductive ProtectedRequest where
  | createPost (body : PostFields)
  | updatePost (id : String) (body : PostFields)
  | deletePost (id : String)
  | analytics (days : Option Int)
  | cleanup (days : Option Int)
  | exportData (scope : Option String)
  | verify
deriving DecidableEq, Repr

/-- The bodies of the successful responses of the protected routes. -/
inductive Body where
  | post (created : Post)
  | updated (view : UpdatedPost)
  | message (text : String)
  | analytics (result : Analytics)
  | cleanup (report : CleanupReport)
  | exported (tables : ExportBody)
  | verified (valid : Bool) (user : Claims)
deriving DecidableEq, Repr

/-- A response with its body wrapped. -/
def Response.mapBody {α β : Type} (f : α → β) (r : Response α) : Response β :=
  match r with
  | Response.ok status body => Response.ok status (f body)
  | Response.error status message => Response.error status message

/-- The handler of a protected route, run once the middleware called `next()`. -/
def runHandler (env : Env) (user : Claims) (req : ProtectedRequest) (store : Store) :
    Response Body × Store :=
  match req with
  | ProtectedRequest.createPost body =>
    let r := createPost env.uuid env.jsClock body store.posts
    (r.1.mapBody Body.post, { store with posts := r.2 })
  | ProtectedRequest.updatePost id body =>
    let r := updatePost id env.jsClock body store.posts
    (r.1.mapBody Body.updated, { store with posts := r.2 })
  | ProtectedRequest.deletePost id =>
    let r := deletePost id store.posts
    (r.1.mapBody Body.message, { store with posts := r.2 })
  | ProtectedRequest.analytics days =>
    ((analytics days env.dbClock store.visits).mapBody Body.analytics, store)
  | ProtectedRequest.cleanup days =>
    let r := cleanupVisits days env.dbClock store.visits
    (r.1.mapBody Body.cleanup, { store with visits := r.2 })
  | ProtectedRequest.exportData scope =>
    ((exportData scope env.jsClock store).mapBody Body.exported, store)
  | ProtectedRequest.verify =>
    (Response.ok 200 (Body.verified true user), store)

/-- A protected route: the middleware, then the handler (server.js 163, 193, 226, 261,
325, 343, 400). -/
def protectedRoute (jwt : JwtLibrary) (env : Env) (authorization : Option String)
    (req : ProtectedRequest) (store : Store) : Response Body × Store :=
  match authenticateToken jwt env.envSecret (env.jsClock / 1000) authorization with
  | AuthOutcome.rejected status message => (Response.error status message, store)
  | AuthOutcome.accepted user => runHandler env user req store

/-- A stand-in for the package with one token, issued in second 1 for 24 hours: `sign`
always issues it, and `verify` accepts it, and nothing else, for the secret
`cosmos_secret_key` before second 86401. -/
def oneTokenJwt : JwtLibrary where
  sign := fun _ _ _ _ _ => "h.p.s"
  verify := fun token secret clock =>
    if token = "h.p.s" ∧ secret = "cosmos_secret_key" ∧ clock < 86401 then
      some { role := "admin", username := "admin", iat := 1, exp := 86401 }
    else none

/-- An environment without `JWT_SECRET`, one second after the start of the clocks. -/
def firstSecond : Env :=
  { envSecret := none, jsClock := 1000, dbClock := 1, uuid := "id-12" }

/-! ## Histories of the post store -/

/-- The post stores that sequences of the writing handlers `create`, `update` and `delete`
build from the empty table, with any ids, clock readings and request bodies. -/
inductive ReachablePosts : List Post → Prop where
  | empty : ReachablePosts []
  | create (store : List Post) (postId : String) (now : Nat) (body : PostFields) :
      ReachablePosts store → ReachablePosts (createPost postId now body store).2
  | update (store : List Post) (id : String) (now : Nat) (body : PostFields) :
      ReachablePosts store → ReachablePosts (updatePost id now body store).2
  | delete (store : List Post) (id : String) :
      ReachablePosts store → ReachablePosts (deletePost id store).2

/-- Noon of day 20. -/
def noonOfDay20 : Nat := 20 * 86400 + 43200

/-- A visit recorded on day 19 at 00:01:40, more than one day (36 hours less 100 seconds)
before `noonOfDay20`. -/
def earlyDay19Visit : Visit :=
  { id := 1, ip := "10.0.0.1", user_agent := "", page := "/", timestamp := 19 * 86400 + 100 }

/-- A visit recorded at `noonOfDay20` itself. -/
def visitAtNoon : Visit :=
  { id := 1, ip := "10.0.0.1", user_agent := "", page := "/", timestamp := noonOfDay20 }

/-! ## Evaluation on small inputs -/

example : (listedPosts (listPosts (some 1) (some 5) twelvePosts)).map Post.created_at
    = [1011, 1010, 1009, 1008, 1007] := by decide
example : (listedPosts (listPosts (some 3) (some 5) twelvePosts)).map Post.created_at
    = [1001, 1000] := by decide
example : listedPosts (listPosts (some 4) (some 5) twelvePosts) = [] := by decide
example : (paginate 1 5 12).totalPages = 3 := by decide
example : (listedPagination (listPosts (some 1) (some 5) twelvePosts)) =
    some ⟨1, 3, 12, true, false⟩ := by decide
example : (listedPagination (listPosts (some 3) (some 5) twelvePosts)) =
    some ⟨3, 3, 12, false, true⟩ := by decide
example : ceilDiv 12 (-5) = -2 := by decide
example : toDouble 9007199254740993 = 9007199254740992 := by decide
example : toDouble 9007199254740995 = 9007199254740996 := by decide
example : toDouble (10 ^ 20 - 1) = 10 ^ 20 := by decide
example : toDouble (2 ^ 63 - 1) = 2 ^ 63 := by decide
example : listPosts (some (10 ^ 20)) (some 5) twelvePosts
    = Response.error 500 "SQLITE_MISMATCH: datatype mismatch" := by decide
example : listedPosts (listPosts (some (2 ^ 40)) (some 5) twelvePosts) = [] := by decide
example : (orderByDesc Post.created_at
      [⟨"a", "t", "v", "d", 7, 7⟩, ⟨"b", "t", "v", "d", 7, 7⟩, ⟨"c", "t", "v", "d", 9, 9⟩,
        ⟨"d", "t", "v", "d", 7, 7⟩]).map Post.id
    = ["c", "d", "b", "a"] := by decide

example : earlyDay19Visit ∈ (cleanupVisits (some 1) noonOfDay20 [earlyDay19Visit]).2 := by
  decide
example : (cleanupVisits (some 0) noonOfDay20 [visitAtNoon]).2 = [visitAtNoon] := by decide
example : (cleanupVisits (some 0) noonOfDay20 [visitAtNoon]).1 = Response.ok 200 ⟨0, 12⟩ := by
  decide

example : dateNowMinusDays noonOfDay20 2440608 = some (-2440588) := by decide
example : dateNowMinusDays noonOfDay20 2440609 = none := by decide
example : dateNowMinusDays (noonOfDay20 - 1) 2440608 = none := by decide
example : dateNowMinusDays noonOfDay20 (-1) = none := by decide
example : analytics none noonOfDay20 fiveVisits
    = Response.error 500 "SQLITE_ERROR: near \"unique\": syntax error" := by
  decide
example : analyticsBody (analytics (some 7) noonOfDay20 fiveVisits) = none := by decide
example : groupByDate fiveVisits = [⟨19, 2⟩, ⟨20, 3⟩] := by decide

example : createPost "id-12" 5000 ⟨some "t", some "v", some "d"⟩ twelvePosts
    = (Response.ok 201 ⟨"id-12", "t", "v", "d", 5000, 5000⟩,
        twelvePosts ++ [⟨"id-12", "t", "v", "d", 5000, 5000⟩]) := by
  decide
example : (createPost "id-12" 5000 ⟨some "t", some "", some "d"⟩ twelvePosts).1
    = Response.error 400 "Все поля обязательны для заполнения" := by
  decide
example : (createPost "3" 5000 ⟨some "t", some "v", some "d"⟩ twelvePosts)
    = (Response.error 500 "SQLITE_CONSTRAINT: UNIQUE constraint failed: posts.id",
        twelvePosts) := by
  decide
example : getPost "3" twelvePosts = Response.ok 200 ⟨"3", "t", "v", "d", 1003, 1003⟩ := by
  decide
example : getPost "id-12" twelvePosts = Response.error 404 "Пост не найден" := by decide

example : (updatePost "3" 9000 ⟨some "T", some "V", some "D"⟩ twelvePosts).1
    = Response.ok 200 ⟨"3", "T", "V", "D", 9000⟩ := by
  decide
example : getPost "3" (updatePost "3" 9000 ⟨some "T", some "V", some "D"⟩ twelvePosts).2
    = Response.ok 200 ⟨"3", "T", "V", "D", 1003, 9000⟩ := by
  decide
example : updatePost "id-12" 9000 ⟨some "T", some "V", some "D"⟩ twelvePosts
    = (Response.error 404 "Пост не найден", twelvePosts) := by
  decide
example : (updatePost "3" 9000 ⟨some "T", none, some "D"⟩ twelvePosts)
    = (Response.error 400 "Все поля обязательны для заполнения", twelvePosts) := by
  decide
example : ((deletePost "3" twelvePosts).1, (deletePost "3" twelvePosts).2.length)
    = (Response.ok 200 "Пост успешно удален", 11) := by
  decide
example : deletePost "id-12" twelvePosts = (Response.error 404 "Пост не найден", twelvePosts) := by
  decide

example : recordVisit 6 1728100 ⟨some "10.0.0.9", none, some "/a"⟩ fiveVisits
    = (Response.ok 201 "Посещение записано",
        fiveVisits ++ [⟨6, "10.0.0.9", "", "/a", 1728100⟩]) := by
  decide
example : recordVisit 6 1728100 ⟨some "", some "ua", some "/a"⟩ fiveVisits
    = (Response.error 400 "IP адрес обязателен", fiveVisits) := by
  decide
example : exportData (some "visits") 7 ⟨twelvePosts, [earlyDay19Visit]⟩
    = Response.ok 200 ⟨none, some [earlyDay19Visit], 7⟩ := by
  decide
example : exportData none 7 ⟨[], [earlyDay19Visit]⟩
    = Response.ok 200 ⟨some [], some [earlyDay19Visit], 7⟩ := by
  decide
example : exportData (some "other") 7 ⟨[], [earlyDay19Visit]⟩
    = Response.ok 200 ⟨some [], some [earlyDay19Visit], 7⟩ := by
  decide

example : bearerToken (some "Bearer h.p.s") = some "h.p.s" := by decide
example : bearerToken (some "Bearer") = none := by decide
example : bearerToken (some "Bearer  h.p.s") = some "" := by decide
example : bearerToken none = none := by decide
example : login oneTokenJwt firstSecond (some "r@@t00") = Response.ok 200 ⟨"h.p.s", "admin"⟩ := by
  decide
example : login oneTokenJwt firstSecond (some "root") = Response.error 401 "Неверный пароль" := by
  decide
example : protectedRoute oneTokenJwt firstSecond (some "Bearer h.p.s") ProtectedRequest.verify
      ⟨[], []⟩
    = (Response.ok 200 (Body.verified true ⟨"admin", "admin", 1, 86401⟩), ⟨[], []⟩) := by
  decide
example : protectedRoute oneTokenJwt firstSecond (some "Bearer forged")
      (ProtectedRequest.deletePost "3") ⟨twelvePosts, []⟩
    = (Response.error 403 "Недействительный токен", ⟨twelvePosts, []⟩) := by
  decide
example : protectedRoute oneTokenJwt firstSecond none
      (ProtectedRequest.deletePost "3") ⟨twelvePosts, []⟩
    = (Response.error 401 "Токен доступа не предоставлен", ⟨twelvePosts, []⟩) := by
  decide
example : (protectedRoute oneTokenJwt firstSecond (some "Bearer h.p.s")
      (ProtectedRequest.deletePost "3") ⟨twelvePosts, []⟩).2.posts.length = 11 := by
  decide

/-! ## Lemmas on the helpers -/

theorem floor_intCast_div_pos (a b : Int) (hb : 0 < b) : ⌊(a : ℚ) / (b : ℚ)⌋ = a / b := by
  obtain ⟨n, rfl⟩ := Int.eq_ofNat_of_zero_le hb.le
  exact_mod_cast Rat.floor_intCast_div_natCast a n

/-- The integer computation `ceilDiv` is the ceiling of the exact quotient. -/
theorem ceilDiv_eq_ceil (a b : Int) (hb : b ≠ 0) : ceilDiv a b = ⌈(a : ℚ) / (b : ℚ)⌉ := by
  unfold ceilDiv
  rcases lt_or_gt_of_ne hb with h | h
  · have h2 : (0 : Int) < -b := by omega
    rw [if_neg (by omega), ← floor_intCast_div_pos a (-b) h2, ← Int.ceil_neg]
    congr 1
    push_cast
    rw [div_neg, neg_neg]
  · rw [if_pos h, ← floor_intCast_div_pos (-a) b h, ← Int.ceil_neg]
    congr 1
    push_cast
    rw [neg_div, neg_neg]

theorem orderByDesc_sorted {α : Type} (key : α → Nat) (rows : List α) :
    (orderByDesc key rows).Sorted (fun a b => key b ≤ key a) := by
  haveI : IsTotal α (fun a b => key b ≤ key a) := ⟨fun a b => Nat.le_total (key b) (key a)⟩
  haveI : IsTrans α (fun a b => key b ≤ key a) := ⟨fun _ _ _ h1 h2 => Nat.le_trans h2 h1⟩
  exact List.sorted_insertionSort _ rows.reverse

theorem orderByDesc_perm {α : Type} (key : α → Nat) (rows : List α) :
    (orderByDesc key rows).Perm rows :=
  (List.perm_insertionSort _ rows.reverse).trans (List.reverse_perm rows)

theorem orderByDesc_length {α : Type} (key : α → Nat) (rows : List α) :
    (orderByDesc key rows).length = rows.length :=
  (orderByDesc_perm key rows).length_eq

theorem parseIntOr_of_ne_zero (n d : Int) (h : n ≠ 0) : parseIntOr (some n) d = n := by
  simp [parseIntOr, h]

theorem toDouble_of_lt (n : Int) (h : n.natAbs < 2 ^ 53) : toDouble n = n := by
  unfold toDouble
  simp only [h, if_true]

theorem toDouble_natCast (n : Nat) (h : n < 2 ^ 53) : toDouble (n : Int) = n :=
  toDouble_of_lt _ (by rw [Int.natAbs_ofNat]; exact h)

/-- A cut-off that SQLite cannot represent lies before every timestamp: with it, as with
the exact date, no timestamp is before the cut-off. -/
theorem timestampBefore_natDays (ts now days : Nat) :
    timestampBefore ts (dateNowMinusDays now (days : Int))
      = decide ((dateOf ts : Int) < (dateOf now : Int) - days) := by
  unfold dateNowMinusDays
  rw [if_neg (by omega)]
  split
  · rename_i hrange
    have hday : dateOf now * 86400 ≤ now := Nat.div_mul_le_self now 86400
    have hnot : ¬ (dateOf ts : Int) < (dateOf now : Int) - days := by omega
    rw [decide_eq_false hnot]
    rfl
  · rfl

/-- Whatever the cut-off, a visit of the current day or later is not before it. -/
theorem timestampBefore_today (ts now : Nat) (days : Int) (h : dateOf now ≤ dateOf ts) :
    timestampBefore ts (dateNowMinusDays now days) = false := by
  unfold dateNowMinusDays
  split
  · rfl
  · split
    · rfl
    · simp only [timestampBefore, decide_eq_false_iff_not]
      omega

/-- Whatever the cut-off, only visits of earlier days are before it. -/
theorem timestampBefore_lt_today (ts now : Nat) (days : Int)
    (h : timestampBefore ts (dateNowMinusDays now days) = true) : dateOf ts < dateOf now := by
  by_contra hc
  rw [timestampBefore_today ts now days (by omega)] at h
  exact Bool.false_ne_true h

/-- The store a cleanup leaves holds no row that the same cleanup would delete. -/
theorem cleanupVisits_again (q : Option Int) (now : Nat) (visits : List Visit) :
    cleanupVisits q now (cleanupVisits q now visits).2
      = (Response.ok 200 { changes := 0, days := parseIntOr q 12 },
          (cleanupVisits q now visits).2) := by
  have h0 : ∀ f : Visit → Bool, List.filter (fun a => f a && !f a) visits = [] := by
    intro f
    rw [List.filter_eq_nil_iff]
    intro v _
    simp
  simp only [cleanupVisits, List.filter_filter, Bool.and_self]
  rw [h0 fun a => timestampBefore a.timestamp (dateNowMinusDays now (parseIntOr q 12))]
  rfl

theorem dateOf_mono {a b : Nat} (h : a ≤ b) : dateOf a ≤ dateOf b :=
  Nat.div_le_div_right h

/-- The rows of a grouping: one for each date that occurs, with the number of its rows. -/
theorem mem_groupByDate (rows : List Visit) (dc : DailyCount) :
    dc ∈ groupByDate rows ↔
      (∃ v ∈ rows, dateOf v.timestamp = dc.date) ∧
        dc.count = rows.countP (fun v => decide (dateOf v.timestamp = dc.date)) := by
  unfold groupByDate
  rw [List.mem_map]
  constructor
  · rintro ⟨d, hd, rfl⟩
    rw [(List.perm_insertionSort _ _).mem_iff, List.mem_dedup, List.mem_map] at hd
    exact ⟨hd, rfl⟩
  · rintro ⟨hv, hc⟩
    refine ⟨dc.date, ?_, ?_⟩
    · rw [(List.perm_insertionSort _ _).mem_iff, List.mem_dedup, List.mem_map]
      exact hv
    · cases dc
      simp only at hc
      rw [hc]

/-- The dates of a grouping are strictly ascending, so no date occurs twice. -/
theorem groupByDate_dates_sorted (rows : List Visit) :
    ((groupByDate rows).map DailyCount.date).Sorted (· < ·) := by
  have hmap : (groupByDate rows).map DailyCount.date
      = ((rows.map fun v => dateOf v.timestamp).dedup).insertionSort (· ≤ ·) := by
    unfold groupByDate
    rw [List.map_map]
    exact List.map_id _
  rw [hmap]
  apply (List.sorted_insertionSort _ _).lt_of_le
  rw [(List.perm_insertionSort _ _).nodup_iff]
  exact List.nodup_dedup _

/-- Filtering by a condition on the date does not change the count of a date that passes. -/
theorem countP_date_filter (rows : List Visit) (keep : Nat → Bool) (d : Nat) (hk : keep d = true) :
    (rows.filter fun v => keep (dateOf v.timestamp)).countP
        (fun v => decide (dateOf v.timestamp = d))
      = rows.countP (fun v => decide (dateOf v.timestamp = d)) := by
  rw [List.countP_filter]
  apply List.countP_congr
  intro v _
  simp only [Bool.and_eq_true, decide_eq_true_eq]
  constructor
  · exact fun h => h.1
  · intro h
    exact ⟨h, by rw [h]; exact hk⟩

theorem truthy_eq_false_iff (s : Option String) : truthy s = false ↔ missingOrEmpty s := by
  cases s with
  | none => simp [truthy, missingOrEmpty]
  | some t => simp [truthy, missingOrEmpty]

theorem truthy_some_of_ne (t : String) (h : t ≠ "") : truthy (some t) = true := by
  simp [truthy, h]

/-- The outcome of `createPost` when the three fields pass validation. -/
theorem createPost_valid (postId : String) (now : Nat) (title video description : String)
    (store : List Post) (ht : title ≠ "") (hv : video ≠ "") (hd : description ≠ "") :
    createPost postId now ⟨some title, some video, some description⟩ store =
      if store.any (fun p => p.id == postId) then
        (Response.error 500 "SQLITE_CONSTRAINT: UNIQUE constraint failed: posts.id", store)
      else
        (Response.ok 201 ⟨postId, title, video, description, now, now⟩,
          store ++ [⟨postId, title, video, description, now, now⟩]) := by
  unfold createPost
  rw [truthy_some_of_ne _ ht, truthy_some_of_ne _ hv, truthy_some_of_ne _ hd]
  rfl

/-- The validation test of the post handlers is true when a field is missing or empty. -/
theorem validation_rejects (body : PostFields)
    (h : missingOrEmpty body.title ∨ missingOrEmpty body.video ∨
      missingOrEmpty body.description) :
    (!truthy body.title || !truthy body.video || !truthy body.description) = true := by
  rcases h with h | h | h
  · rw [(truthy_eq_false_iff _).mpr h]; rfl
  · rw [(truthy_eq_false_iff _).mpr h]; simp
  · rw [(truthy_eq_false_iff _).mpr h]; simp

theorem countP_id_eq_zero_iff (id : String) (store : List Post) :
    store.countP (fun p => p.id == id) = 0 ↔ ∀ p ∈ store, p.id ≠ id := by
  rw [List.countP_eq_zero]
  constructor
  · intro h p hp hid
    exact h p hp (by simpa using hid)
  · intro h p hp hid
    exact h p hp (by simpa using hid)

/-- The outcome of `updatePost` when the three fields pass validation. -/
theorem updatePost_valid (id : String) (now : Nat) (title video description : String)
    (store : List Post) (ht : title ≠ "") (hv : video ≠ "") (hd : description ≠ "") :
    updatePost id now ⟨some title, some video, some description⟩ store =
      if store.countP (fun p => p.id == id) = 0 then
        (Response.error 404 "Пост не найден",
          updatedTable id now title video description store)
      else
        (Response.ok 200 ⟨id, title, video, description, now⟩,
          updatedTable id now title video description store) := by
  unfold updatePost
  rw [truthy_some_of_ne _ ht, truthy_some_of_ne _ hv, truthy_some_of_ne _ hd]
  rfl

/-- An `UPDATE` that matches no row leaves the table as it was. -/
theorem updatedTable_of_absent (id : String) (now : Nat) (title video description : String)
    (store : List Post) (h : ∀ p ∈ store, p.id ≠ id) :
    updatedTable id now title video description store = store := by
  unfold updatedTable
  conv_rhs => rw [← List.map_id store]
  apply List.map_congr_left
  intro p hp
  have : (p.id == id) = false := by simpa using h p hp
  rw [this]
  rfl

theorem updatedTable_getElem? (id : String) (now : Nat) (title video description : String)
    (store : List Post) (i : Nat) :
    (updatedTable id now title video description store)[i]? =
      (store[i]?).map fun p =>
        if p.id = id then ⟨p.id, title, video, description, p.created_at, now⟩ else p := by
  unfold updatedTable
  rw [List.getElem?_map]
  congr 1
  funext p
  by_cases h : p.id = id
  · rw [if_pos h, if_pos (by simpa using h)]
    rfl
  · rw [if_neg h, if_neg (by simpa using h)]

theorem deletePost_cases (id : String) (store : List Post) :
    deletePost id store =
      if store.countP (fun p => p.id == id) = 0 then
        (Response.error 404 "Пост не найден", store.filter fun p => !(p.id == id))
      else
        (Response.ok 200 "Пост успешно удален", store.filter fun p => !(p.id == id)) :=
  rfl

/-- A `DELETE` that matches no row leaves the table as it was. -/
theorem filter_id_of_absent (id : String) (store : List Post) (h : ∀ p ∈ store, p.id ≠ id) :
    store.filter (fun p => !(p.id == id)) = store := by
  rw [List.filter_eq_self]
  intro p hp
  simpa using h p hp

theorem truthy_none : truthy none = false := rfl

theorem splitOnSpace_of_no_space (text : List Char) (h : ' ' ∉ text) :
    splitOnSpace text = [text] := by
  induction text with
  | nil => rfl
  | cons c cs ih =>
    have hc : c ≠ ' ' := fun hc => h (by rw [hc]; exact List.mem_cons_self _ _)
    have hcs : ' ' ∉ cs := fun hm => h (List.mem_cons_of_mem _ hm)
    rw [splitOnSpace, if_neg hc, ih hcs]

/-- A header without a space has no second piece: there is no token. -/
theorem bearerToken_of_no_space (header : String) (h : ' ' ∉ header.data) :
    truthy (bearerToken (some header)) = false := by
  show truthy (if header = "" then some ""
    else ((splitOnSpace header.data)[1]?).map String.mk) = false
  by_cases he : header = ""
  · rw [if_pos he]
    rfl
  · rw [if_neg he, splitOnSpace_of_no_space _ h]
    rfl

/-- The header `Bearer <token>` that the admin client sends carries the token. -/
theorem bearerToken_bearer (token : String) (h : ' ' ∉ token.data) :
    bearerToken (some ("Bearer " ++ token)) = some token := by
  have hdata : ("Bearer " ++ token).data
      = 'B' :: 'e' :: 'a' :: 'r' :: 'e' :: 'r' :: ' ' :: token.data := by
    rw [String.data_append]
    rfl
  have hne : ¬ ("Bearer " ++ token) = "" := by
    intro he
    have := congrArg String.data he
    rw [hdata] at this
    exact List.cons_ne_nil _ _ this
  show (if ("Bearer " ++ token) = "" then some ""
    else ((splitOnSpace ("Bearer " ++ token).data)[1]?).map String.mk) = some token
  rw [if_neg hne, hdata]
  simp [splitOnSpace, splitOnSpace_of_no_space _ h]

/-- The handler `create` leaves the table as it was or appends one row with an id that
no row has. -/
theorem createPost_table (postId : String) (now : Nat) (body : PostFields) (store : List Post) :
    (createPost postId now body store).2 = store ∨
      ∃ post : Post, post.id = postId ∧ (∀ p ∈ store, p.id ≠ postId) ∧
        (createPost postId now body store).2 = store ++ [post] := by
  unfold createPost
  split
  · exact Or.inl rfl
  · split
    · exact Or.inl rfl
    · rename_i hany
      refine Or.inr ⟨_, rfl, ?_, rfl⟩
      intro p hp hid
      exact hany (List.any_eq_true.mpr ⟨p, hp, by simpa using hid⟩)

/-- The handler `update` does not change the column `id`. -/
theorem updatePost_ids (id : String) (now : Nat) (body : PostFields) (store : List Post) :
    ((updatePost id now body store).2).map Post.id = store.map Post.id := by
  have hmap : ∀ t v d : String,
      (store.map fun p => if p.id == id then p.rewrite t v d now else p).map Post.id
        = store.map Post.id := by
    intro t v d
    rw [List.map_map]
    apply List.map_congr_left
    intro p _
    show (if p.id == id then p.rewrite t v d now else p).id = p.id
    split <;> rfl
  unfold updatePost
  split
  · rfl
  · by_cases h0 : store.countP (fun p => p.id == id) = 0
    · simp only [h0, if_true]
      exact hmap _ _ _
    · simp only [h0, if_false]
      exact hmap _ _ _

/-- The handler `delete` leaves a part of the table. -/
theorem deletePost_sublist (id : String) (store : List Post) :
    ((deletePost id store).2).Sublist store := by
  rw [deletePost_cases]
  split
  · exact List.filter_sublist _
  · exact List.filter_sublist _

/-- The listing for a page at least 1 and a positive limit whose product is below
`2 ^ 53`: no rounding takes place and the statement is accepted. -/
theorem listPosts_of_bounded (store : List Post) (page limit : Nat) (hp : 1 ≤ page)
    (hl : 0 < limit) (hb : page * limit < 2 ^ 53) :
    listPosts (some (page : Int)) (some (limit : Int)) store =
      Response.ok 200
        ⟨((orderByDesc Post.created_at store).drop ((page - 1) * limit)).take limit,
          ⟨page, ceilDiv (store.length : Int) limit, store.length,
            decide ((page : Int) * (limit : Int) < (store.length : Int)),
            decide ((page : Int) > 1)⟩⟩ := by
  have hpl : page ≤ page * limit := Nat.le_mul_of_pos_right page hl
  have hlp : limit ≤ page * limit := Nat.le_mul_of_pos_left limit (by omega)
  have hol : (page - 1) * limit ≤ page * limit := Nat.mul_le_mul_right limit (Nat.sub_le page 1)
  have hpage : parseIntOr (Option.map toDouble (some (page : Int))) 1 = page := by
    rw [Option.map_some', toDouble_natCast page (by omega)]
    exact parseIntOr_of_ne_zero _ _ (by omega)
  have hlimit : parseIntOr (Option.map toDouble (some (limit : Int))) 10 = limit := by
    rw [Option.map_some', toDouble_natCast limit (by omega)]
    exact parseIntOr_of_ne_zero _ _ (by omega)
  have hsub : (page : Int) - 1 = ((page - 1 : Nat) : Int) := by omega
  have hoffset : toDouble (toDouble ((page : Int) - 1) * (limit : Int))
      = (((page - 1) * limit : Nat) : Int) := by
    rw [hsub, toDouble_natCast (page - 1) (by omega), ← Nat.cast_mul,
      toDouble_natCast ((page - 1) * limit) (by omega)]
  have hprod : toDouble ((page : Int) * (limit : Int)) = (page : Int) * (limit : Int) := by
    rw [← Nat.cast_mul, toDouble_natCast (page * limit) hb]
  have hfits : (!(fitsInt64 (limit : Int) && fitsInt64 (((page - 1) * limit : Nat) : Int)))
      = false := by
    have h1 : fitsInt64 (limit : Int) = true := by
      unfold fitsInt64
      rw [decide_eq_true_eq]
      omega
    have h2 : fitsInt64 (((page - 1) * limit : Nat) : Int) = true := by
      unfold fitsInt64
      rw [decide_eq_true_eq]
      omega
    rw [h1, h2]
    rfl
  have hslice : sqlLimitOffset (limit : Int) (((page - 1) * limit : Nat) : Int)
      (orderByDesc Post.created_at store)
      = ((orderByDesc Post.created_at store).drop ((page - 1) * limit)).take limit := by
    unfold sqlLimitOffset
    simp only [Int.toNat_natCast]
    rw [if_neg (by omega)]
  unfold listPosts
  simp only [hpage, hlimit, hoffset, hfits, paginate, hprod, hslice]
  rfl

/-- With a positive divisor, a number is below the rounded-up quotient exactly when its
product with the divisor is below the dividend. -/
theorem lt_ceilDiv_iff (n total limit : Int) (hl : 0 < limit) :
    n < ceilDiv total limit ↔ n * limit < total := by
  unfold ceilDiv
  rw [if_pos hl]
  constructor
  · intro h
    have h2 : (-total) / limit < -n := by omega
    have h3 := (Int.ediv_lt_iff_lt_mul hl).mp h2
    have h4 : -n * limit = -(n * limit) := by ring
    omega
  · intro h
    have h4 : -n * limit = -(n * limit) := by ring
    have h3 : (-total) / limit < -n := (Int.ediv_lt_iff_lt_mul hl).mpr (by omega)
    omega

/-- A page of a positive limit is non-empty exactly when its offset is inside the list. -/
theorem take_drop_ne_nil_iff {α : Type} (rows : List α) (offset limit : Nat) (hl : 0 < limit) :
    (rows.drop offset).take limit ≠ [] ↔ offset < rows.length := by
  rw [Ne, List.take_eq_nil_iff, List.drop_eq_nil_iff]
  constructor
  · intro h
    by_contra hc
    exact h (Or.inr (by omega))
  · rintro h (h0 | h1)
    · omega
    · omega

/-! ## Claims on listing -/

/-- C1, as amended: for every post store, page at least 1 and positive limit whose product
is below `2 ^ 53`, the listing answers 200 and its posts are an ordering of the store by
`created_at` descending (a descending permutation of the store), cut to the positions
`(page-1)*limit ≤ k < page*limit` of that ordering; a page beyond the last post is an
empty list, not an error. -/
theorem listPosts_slice (store : List Post) (page limit : Nat) (hp : 1 ≤ page) (hl : 0 < limit)
    (hb : page * limit < 2 ^ 53) :
    ∃ (body : PostList) (ordering : List Post),
      listPosts (some (page : Int)) (some (limit : Int)) store = Response.ok 200 body ∧
      ordering.Sorted (fun a b => b.created_at ≤ a.created_at) ∧
      ordering.Perm store ∧
      body.posts = (ordering.drop ((page - 1) * limit)).take limit ∧
      (∀ i : Nat, body.posts[i]? =
        if i < limit then ordering[(page - 1) * limit + i]? else none) ∧
      (store.length ≤ (page - 1) * limit → body.posts = []) := by
  refine ⟨_, orderByDesc Post.created_at store, listPosts_of_bounded store page limit hp hl hb,
    orderByDesc_sorted _ _, orderByDesc_perm _ _, rfl, ?_, ?_⟩
  · intro i
    show (((orderByDesc Post.created_at store).drop ((page - 1) * limit)).take limit)[i]? = _
    by_cases hi : i < limit
    · rw [if_pos hi, List.getElem?_take_of_lt hi, List.getElem?_drop]
    · rw [if_neg hi, List.getElem?_take_eq_none (by omega)]
  · intro hlen
    show ((orderByDesc Post.created_at store).drop ((page - 1) * limit)).take limit = []
    rw [List.drop_eq_nil_of_le (by rw [orderByDesc_length]; exact hlen)]
    exact List.take_nil

/-- Witness of C1 as amended: twelve posts, limit 5, page 3. -/
theorem listPosts_slice_witness :
    ∃ (body : PostList) (ordering : List Post),
      listPosts (some ((3 : Nat) : Int)) (some ((5 : Nat) : Int)) twelvePosts
        = Response.ok 200 body ∧
      ordering.Sorted (fun a b => b.created_at ≤ a.created_at) ∧
      ordering.Perm twelvePosts ∧
      body.posts = (ordering.drop ((3 - 1) * 5)).take 5 ∧
      (∀ i : Nat, body.posts[i]? = if i < 5 then ordering[(3 - 1) * 5 + i]? else none) ∧
      (twelvePosts.length ≤ (3 - 1) * 5 → body.posts = []) :=
  listPosts_slice twelvePosts 3 5 (by decide) (by decide) (by decide)

/-- C1 as stated fails: with page `10 ^ 20` and limit 5 the offset, about `5 * 10 ^ 20`, is
not a 64-bit integer, the statement is refused and the listing answers 500. -/
theorem listPosts_large_page_fails :
    listPosts (some (10 ^ 20)) (some 5) twelvePosts
      = Response.error 500 "SQLITE_MISMATCH: datatype mismatch" := by
  decide

/-- C2, as amended: for every post store, page at least 1 and positive limit whose product
is below `2 ^ 53` (pages beyond the range included), the metadata of the listing is
`currentPage = page`, `totalPages = ceil(total / limit)`, `totalPosts = total` (the size of
the store), `hasNext` exactly when `page * limit < total`, and `hasPrev` exactly when
`page > 1`. -/
theorem listPosts_pagination (store : List Post) (page limit : Nat)
    (hp : 1 ≤ page) (hl : 0 < limit) (hb : page * limit < 2 ^ 53) :
    ∃ body, listPosts (some (page : Int)) (some (limit : Int)) store = Response.ok 200 body ∧
      body.pagination.currentPage = page ∧
      body.pagination.totalPages = ⌈((store.length : Int) : ℚ) / ((limit : Int) : ℚ)⌉ ∧
      body.pagination.totalPosts = store.length ∧
      (body.pagination.hasNext = true ↔ page * limit < store.length) ∧
      (body.pagination.hasPrev = true ↔ 1 < page) := by
  refine ⟨_, listPosts_of_bounded store page limit hp hl hb, rfl, ?_, rfl, ?_, ?_⟩
  · exact ceilDiv_eq_ceil _ _ (by omega)
  · show decide ((page : Int) * (limit : Int) < (store.length : Int)) = true ↔ _
    rw [decide_eq_true_eq]
    exact_mod_cast Iff.rfl
  · show decide ((page : Int) > 1) = true ↔ _
    rw [decide_eq_true_eq]
    omega

/-- Witness of C2 as amended: twelve posts, limit 5, page 1. -/
theorem listPosts_pagination_witness :
    ∃ body, listPosts (some ((1 : Nat) : Int)) (some ((5 : Nat) : Int)) twelvePosts
        = Response.ok 200 body ∧
      body.pagination.currentPage = (1 : Nat) ∧
      body.pagination.totalPages = ⌈((twelvePosts.length : Int) : ℚ) / (((5 : Nat) : Int) : ℚ)⌉ ∧
      body.pagination.totalPosts = twelvePosts.length ∧
      (body.pagination.hasNext = true ↔ 1 * 5 < twelvePosts.length) ∧
      (body.pagination.hasPrev = true ↔ 1 < 1) :=
  listPosts_pagination twelvePosts 1 5 (by decide) (by decide) (by decide)

/-- C2 as stated fails: the page 9007199254740993 (`2 ^ 53 + 1`) is not a JavaScript
number, `parseInt` gives 9007199254740992 and that is the `currentPage` returned; and with
page `10 ^ 20` and limit 5 the listing answers 500 and returns no metadata at all. -/
theorem listPosts_pagination_not_page :
    (listedPagination (listPosts (some 9007199254740993) (some 1) twelvePosts)).map
        Pagination.currentPage = some 9007199254740992 ∧
      listedPagination (listPosts (some (10 ^ 20)) (some 5) twelvePosts) = none := by
  decide

/-! ## Claims on the retention sweeper -/

/-- C3, as amended: for every `olderThanDays ≥ 1`, every current time and every visit
store, cleanup deletes exactly the visits whose calendar date is earlier than the current
date minus `olderThanDays` days (the cut-off is the start of a day, not the current
instant), keeps the others in place, and reports the number of rows removed. -/
theorem cleanupVisits_deletes_before_date (days : Nat) (hd : 1 ≤ days) (now : Nat)
    (visits : List Visit) :
    ∃ report kept, cleanupVisits (some (days : Int)) now visits = (Response.ok 200 report, kept) ∧
      kept = visits.filter
        (fun v => decide ((dateOf now : Int) - days ≤ (dateOf v.timestamp : Int))) ∧
      (∀ v, v ∈ kept ↔ v ∈ visits ∧ (dateOf now : Int) - days ≤ (dateOf v.timestamp : Int)) ∧
      report.changes = visits.length - kept.length ∧
      report.changes =
        visits.countP (fun v => decide ((dateOf v.timestamp : Int) < (dateOf now : Int) - days)) ∧
      report.days = days := by
  have hq : parseIntOr (some (days : Int)) 12 = days := parseIntOr_of_ne_zero _ _ (by omega)
  have hkept : (visits.filter fun v =>
      !timestampBefore v.timestamp (dateNowMinusDays now (days : Int)))
      = visits.filter
        (fun v => decide ((dateOf now : Int) - days ≤ (dateOf v.timestamp : Int))) := by
    apply List.filter_congr
    intro v _
    rw [timestampBefore_natDays]
    by_cases h : (dateOf v.timestamp : Int) < (dateOf now : Int) - days
    · rw [decide_eq_true h, decide_eq_false (by omega)]
      rfl
    · rw [decide_eq_false h, decide_eq_true (by omega)]
      rfl
  have hdel : (visits.filter fun v =>
      timestampBefore v.timestamp (dateNowMinusDays now (days : Int))).length
      = visits.countP
        (fun v => decide ((dateOf v.timestamp : Int) < (dateOf now : Int) - days)) := by
    simp only [List.countP_eq_length_filter, timestampBefore_natDays]
  refine ⟨⟨(visits.filter fun v =>
      timestampBefore v.timestamp (dateNowMinusDays now (days : Int))).length, days⟩,
    visits.filter fun v => !timestampBefore v.timestamp (dateNowMinusDays now (days : Int)),
    ?_, hkept, ?_, ?_, hdel, rfl⟩
  · simp only [cleanupVisits, hq]
  · intro v
    rw [hkept, List.mem_filter, decide_eq_true_eq]
  · have hsplit := List.length_eq_length_filter_add (l := visits)
      (fun v : Visit => timestampBefore v.timestamp (dateNowMinusDays now (days : Int)))
    show (visits.filter fun v =>
      timestampBefore v.timestamp (dateNowMinusDays now (days : Int))).length = _
    omega

/-- Witness of C3 as amended: a window of one day at noon of day 20. -/
theorem cleanupVisits_deletes_before_date_witness :
    ∃ report kept, cleanupVisits (some ((1 : Nat) : Int)) noonOfDay20 [earlyDay19Visit]
        = (Response.ok 200 report, kept) ∧
      kept = [earlyDay19Visit].filter
        (fun v => decide ((dateOf noonOfDay20 : Int) - (1 : Nat) ≤ (dateOf v.timestamp : Int))) ∧
      (∀ v, v ∈ kept ↔ v ∈ [earlyDay19Visit] ∧
        (dateOf noonOfDay20 : Int) - (1 : Nat) ≤ (dateOf v.timestamp : Int)) ∧
      report.changes = [earlyDay19Visit].length - kept.length ∧
      report.changes = [earlyDay19Visit].countP
        (fun v => decide ((dateOf v.timestamp : Int) < (dateOf noonOfDay20 : Int) - (1 : Nat))) ∧
      report.days = (1 : Nat) :=
  cleanupVisits_deletes_before_date 1 (by decide) noonOfDay20 [earlyDay19Visit]

/-- C3 as stated fails: at noon of day 20 with `olderThanDays = 1`, a visit of day 19,
00:01:40 is strictly older than `now - 1 day` (noon of day 19), yet cleanup reports 0 rows
removed and the visit is still in the store. -/
theorem cleanupVisits_keeps_older_than_instant :
    earlyDay19Visit.timestamp < noonOfDay20 - 1 * 86400 ∧
      cleanupVisits (some 1) noonOfDay20 [earlyDay19Visit]
        = (Response.ok 200 { changes := 0, days := 1 }, [earlyDay19Visit]) := by
  decide

/-- C4 as stated fails: a visit recorded at the current instant survives `cleanup` with
`days=0`, so the store is not empty afterwards. -/
theorem cleanupVisits_zero_not_empty :
    (cleanupVisits (some 0) noonOfDay20 [visitAtNoon]).2 ≠ [] := by
  decide

/-- C4, as amended: for every visit store, cleanup called with `days=0` removes only visits
dated before the current calendar day, every visit of the current day (or later) stays in
the store, and a second cleanup with `days=0` run immediately after removes 0 rows and
leaves the store as it was. -/
theorem cleanupVisits_zero_twice (now : Nat) (visits : List Visit) :
    (∀ v ∈ visits, dateOf now ≤ dateOf v.timestamp →
        v ∈ (cleanupVisits (some 0) now visits).2) ∧
      (∀ v ∈ visits, v ∉ (cleanupVisits (some 0) now visits).2 →
        dateOf v.timestamp < dateOf now) ∧
      (∃ report, (cleanupVisits (some 0) now (cleanupVisits (some 0) now visits).2).1
          = Response.ok 200 report ∧ report.changes = 0) ∧
      (cleanupVisits (some 0) now (cleanupVisits (some 0) now visits).2).2
        = (cleanupVisits (some 0) now visits).2 := by
  refine ⟨?_, ?_, ?_, ?_⟩
  · intro v hv hday
    simp only [cleanupVisits, List.mem_filter]
    exact ⟨hv, by rw [timestampBefore_today _ _ _ hday]; rfl⟩
  · intro v hv hnot
    apply timestampBefore_lt_today v.timestamp now (parseIntOr (some 0) 12)
    by_contra hc
    apply hnot
    simp only [cleanupVisits, List.mem_filter]
    exact ⟨hv, by simpa using hc⟩
  · rw [cleanupVisits_again]
    exact ⟨_, rfl, rfl⟩
  · rw [cleanupVisits_again]

/-- Witness of C4 as amended: one visit recorded at the current instant. -/
theorem cleanupVisits_zero_twice_witness :
    visitAtNoon ∈ (cleanupVisits (some 0) noonOfDay20 [visitAtNoon]).2 :=
  (cleanupVisits_zero_twice noonOfDay20 [visitAtNoon]).1 visitAtNoon (by decide) (by decide)

/-- C5: for every visit store, every current time and every `d2 ≥ d1 ≥ 1`, running
`cleanup(d1)` and then `cleanup(d2)` at the same time deletes zero rows in the second run
and leaves the store as the first run left it. -/
theorem cleanupVisits_idempotent (d1 d2 : Nat) (h1 : 1 ≤ d1) (h12 : d1 ≤ d2) (now : Nat)
    (visits : List Visit) :
    cleanupVisits (some (d2 : Int)) now (cleanupVisits (some (d1 : Int)) now visits).2
      = (Response.ok 200 { changes := 0, days := d2 },
          (cleanupVisits (some (d1 : Int)) now visits).2) := by
  have hq1 : parseIntOr (some (d1 : Int)) 12 = d1 := parseIntOr_of_ne_zero _ _ (by omega)
  have hq2 : parseIntOr (some (d2 : Int)) 12 = d2 := parseIntOr_of_ne_zero _ _ (by omega)
  have hnone : ∀ v ∈ visits.filter
      (fun v => !timestampBefore v.timestamp (dateNowMinusDays now (d1 : Int))),
      timestampBefore v.timestamp (dateNowMinusDays now (d2 : Int)) = false := by
    intro v hv
    have hv1 := (List.mem_filter.mp hv).2
    rw [timestampBefore_natDays] at hv1 ⊢
    simp only [Bool.not_eq_true', decide_eq_false_iff_not] at hv1 ⊢
    omega
  have hdel : (visits.filter
      (fun v => !timestampBefore v.timestamp (dateNowMinusDays now (d1 : Int)))).filter
      (fun v => timestampBefore v.timestamp (dateNowMinusDays now (d2 : Int))) = [] := by
    rw [List.filter_eq_nil_iff]
    intro v hv
    rw [hnone v hv]
    exact Bool.false_ne_true
  have hkeep : (visits.filter
      (fun v => !timestampBefore v.timestamp (dateNowMinusDays now (d1 : Int)))).filter
      (fun v => !timestampBefore v.timestamp (dateNowMinusDays now (d2 : Int)))
      = visits.filter
        (fun v => !timestampBefore v.timestamp (dateNowMinusDays now (d1 : Int))) := by
    rw [List.filter_eq_self]
    intro v hv
    rw [hnone v hv]
    rfl
  simp only [cleanupVisits, hq1, hq2, hdel, hkeep, List.length_nil]

/-- Witness of C5: windows of 1 and 3 days at noon of day 20. -/
theorem cleanupVisits_idempotent_witness :
    cleanupVisits (some ((3 : Nat) : Int)) noonOfDay20
        (cleanupVisits (some ((1 : Nat) : Int)) noonOfDay20 [earlyDay19Visit, visitAtNoon]).2
      = (Response.ok 200 { changes := 0, days := (3 : Nat) },
          (cleanupVisits (some ((1 : Nat) : Int)) noonOfDay20 [earlyDay19Visit, visitAtNoon]).2) :=
  cleanupVisits_idempotent 1 3 (by decide) (by decide) noonOfDay20 [earlyDay19Visit, visitAtNoon]

/-! ## Claims on the analytics aggregator -/

/-- C6: the code does not return the totals.  For every `days` parameter, clock reading and
visit store the second statement of the handler, `SELECT COUNT(DISTINCT ip) as unique FROM
visits`, is refused by SQLite and the handler answers 500 with the syntax error, instead of
`total`, `unique` and `today`. -/
theorem analytics_answers_syntax_error (days : Option Int) (now : Nat) (visits : List Visit) :
    analytics days now visits
      = Response.error 500 "SQLITE_ERROR: near \"unique\": syntax error" := by
  rfl

/-- C7: the code does not return `daily`.  With three visits on day 20 and two on day 19,
read at noon of day 20 with a window of 7 days, the response has no body, hence no list of
`(date, count)` pairs: the handler stopped at its second statement, before the statement
that groups the visits by date. -/
theorem analytics_daily_missing :
    analyticsBody (analytics (some 7) noonOfDay20 fiveVisits) = none ∧
      groupByDate fiveVisits = [⟨19, 2⟩, ⟨20, 3⟩] := by
  decide

/-- C8: the code does not return `recent`.  For every `days` parameter, clock reading and
visit store, no response of the handler is a success with a body, so none carries the list
of the most recent visits: the handler stopped at its second statement. -/
theorem analytics_recent_missing (days : Option Int) (now : Nat) (visits : List Visit) :
    ¬ ∃ (status : Nat) (body : Analytics),
      analytics days now visits = Response.ok status body := by
  rintro ⟨status, body, h⟩
  have herr : analytics days now visits
      = Response.error 500 "SQLITE_ERROR: near \"unique\": syntax error" := rfl
  rw [herr] at h
  exact Response.noConfusion h

/-! ## Claims on creating and reading posts -/

/-- C9: `create` answers 400 and leaves the post store unchanged if any of the three fields
is missing or empty; otherwise, with a freshly generated id (one no stored post has), it
adds exactly one post, at the end of the store, carrying the three fields, that id and the
clock reading as both timestamps, and answers 201 with that record. -/
theorem createPost_validates (postId : String) (now : Nat) (body : PostFields)
    (store : List Post) :
    ((missingOrEmpty body.title ∨ missingOrEmpty body.video ∨ missingOrEmpty body.description) →
      ∃ message, createPost postId now body store = (Response.error 400 message, store)) ∧
    (∀ title video description : String,
      body = ⟨some title, some video, some description⟩ →
      title ≠ "" → video ≠ "" → description ≠ "" →
      (∀ p ∈ store, p.id ≠ postId) →
      createPost postId now body store =
        (Response.ok 201 ⟨postId, title, video, description, now, now⟩,
          store ++ [⟨postId, title, video, description, now, now⟩])) := by
  constructor
  · intro hbad
    refine ⟨"Все поля обязательны для заполнения", ?_⟩
    have hcond : (!truthy body.title || !truthy body.video || !truthy body.description) = true := by
      rcases hbad with h | h | h
      · rw [(truthy_eq_false_iff _).mpr h]; rfl
      · rw [(truthy_eq_false_iff _).mpr h]; simp
      · rw [(truthy_eq_false_iff _).mpr h]; simp
    unfold createPost
    rw [if_pos hcond]
  · intro title video description hbody ht hv hd hfresh
    subst hbody
    rw [createPost_valid postId now title video description store ht hv hd, if_neg]
    rw [List.any_eq_true]
    rintro ⟨p, hp, hid⟩
    exact hfresh p hp (by simpa using hid)

/-- Witness of C9: a thirteenth post with a fresh id. -/
theorem createPost_validates_witness :
    createPost "id-12" 5000 ⟨some "t", some "v", some "d"⟩ twelvePosts =
      (Response.ok 201 ⟨"id-12", "t", "v", "d", 5000, 5000⟩,
        twelvePosts ++ [⟨"id-12", "t", "v", "d", 5000, 5000⟩]) :=
  (createPost_validates "id-12" 5000 ⟨some "t", some "v", some "d"⟩ twelvePosts).2
    "t" "v" "d" rfl (by decide) (by decide) (by decide) (by decide)

/-- C10: for every post store and all non-empty title, video and description, when `create`
succeeds, `get` on the returned id answers 200 with the created record, whose three fields
are the submitted ones and whose `created_at` equals its `updated_at`. -/
theorem createPost_then_getPost (postId : String) (now : Nat)
    (title video description : String) (store after : List Post) (created : Post)
    (ht : title ≠ "") (hv : video ≠ "") (hd : description ≠ "")
    (hcreate : createPost postId now ⟨some title, some video, some description⟩ store
      = (Response.ok 201 created, after)) :
    getPost created.id after = Response.ok 200 created ∧
      created.title = title ∧ created.video = video ∧ created.description = description ∧
      created.created_at = created.updated_at := by
  rw [createPost_valid postId now title video description store ht hv hd] at hcreate
  by_cases hany : store.any (fun p => p.id == postId) = true
  · rw [if_pos hany] at hcreate
    simp at hcreate
  · rw [if_neg hany] at hcreate
    injection hcreate with hresp hstore
    injection hresp with _ hpost
    subst hpost
    subst hstore
    refine ⟨?_, rfl, rfl, rfl, rfl⟩
    have hnone : store.find? (fun p => p.id == postId) = none := by
      rw [List.find?_eq_none]
      intro p hp hid
      exact hany (List.any_eq_true.mpr ⟨p, hp, hid⟩)
    unfold getPost
    rw [List.find?_append, hnone]
    simp

/-- Witness of C10: create a thirteenth post, then read it back. -/
theorem createPost_then_getPost_witness :
    getPost (⟨"id-12", "t", "v", "d", 5000, 5000⟩ : Post).id
        (twelvePosts ++ [⟨"id-12", "t", "v", "d", 5000, 5000⟩])
      = Response.ok 200 ⟨"id-12", "t", "v", "d", 5000, 5000⟩ ∧
      (⟨"id-12", "t", "v", "d", 5000, 5000⟩ : Post).title = "t" ∧
      (⟨"id-12", "t", "v", "d", 5000, 5000⟩ : Post).video = "v" ∧
      (⟨"id-12", "t", "v", "d", 5000, 5000⟩ : Post).description = "d" ∧
      (⟨"id-12", "t", "v", "d", 5000, 5000⟩ : Post).created_at
        = (⟨"id-12", "t", "v", "d", 5000, 5000⟩ : Post).updated_at :=
  createPost_then_getPost "id-12" 5000 "t" "v" "d" twelvePosts
    (twelvePosts ++ [⟨"id-12", "t", "v", "d", 5000, 5000⟩]) ⟨"id-12", "t", "v", "d", 5000, 5000⟩
    (by decide) (by decide) (by decide) (by decide)

/-! ## Claims on updating and deleting posts -/

/-- C11, as amended: for every stored post and all non-empty title, video and description,
`update` on its id succeeds and leaves a table of the same length in which, position by
position, a post with that id has the new three fields and `updated_at` equal to the clock
reading of the request, with its id and `created_at` unchanged, and every other post is
unchanged; the new `updated_at` is at least `created_at` exactly when the clock reading is
not behind the post's `created_at`. -/
theorem updatePost_rewrites (id : String) (now : Nat) (title video description : String)
    (store : List Post) (post : Post)
    (ht : title ≠ "") (hv : video ≠ "") (hd : description ≠ "")
    (hmem : post ∈ store) (hid : post.id = id) :
    ∃ view after,
      updatePost id now ⟨some title, some video, some description⟩ store
        = (Response.ok 200 view, after) ∧
      after.length = store.length ∧
      (∀ i : Nat, after[i]? = (store[i]?).map fun p : Post =>
        if p.id = id then ⟨p.id, title, video, description, p.created_at, now⟩ else p) ∧
      (∀ other ∈ store, other.id ≠ id → other ∈ after) ∧
      (⟨post.id, title, video, description, post.created_at, now⟩ : Post) ∈ after ∧
      (∀ p ∈ after, p.id = id →
        p.title = title ∧ p.video = video ∧ p.description = description ∧
          p.updated_at = now) ∧
      ((⟨post.id, title, video, description, post.created_at, now⟩ : Post).created_at
          ≤ (⟨post.id, title, video, description, post.created_at, now⟩ : Post).updated_at ↔
        post.created_at ≤ now) := by
  have hcount : ¬ store.countP (fun p => p.id == id) = 0 := by
    rw [countP_id_eq_zero_iff]
    intro h
    exact h post hmem hid
  refine ⟨⟨id, title, video, description, now⟩,
    updatedTable id now title video description store, ?_, ?_, ?_, ?_, ?_, ?_, Iff.rfl⟩
  · rw [updatePost_valid id now title video description store ht hv hd, if_neg hcount]
  · exact List.length_map _ _
  · exact updatedTable_getElem? id now title video description store
  · intro other hother hne
    refine List.mem_map.mpr ⟨other, hother, ?_⟩
    rw [if_neg (by simpa using hne)]
  · refine List.mem_map.mpr ⟨post, hmem, ?_⟩
    rw [if_pos (by simpa using hid)]
    rfl
  · intro p hp hpid
    obtain ⟨q, _, hq⟩ := List.mem_map.mp hp
    by_cases h : q.id = id
    · rw [if_pos (by simpa using h)] at hq
      subst hq
      exact ⟨rfl, rfl, rfl, rfl⟩
    · rw [if_neg (by simpa using h)] at hq
      subst hq
      exact absurd hpid h

/-- Witness of C11 as amended: the post with id 3 of twelve posts is rewritten at time
9000. -/
theorem updatePost_rewrites_witness :
    ∃ view after,
      updatePost "3" 9000 ⟨some "T", some "V", some "D"⟩ twelvePosts
        = (Response.ok 200 view, after) ∧
      after.length = twelvePosts.length ∧
      (∀ i : Nat, after[i]? = (twelvePosts[i]?).map fun p : Post =>
        if p.id = "3" then ⟨p.id, "T", "V", "D", p.created_at, 9000⟩ else p) ∧
      (∀ other ∈ twelvePosts, other.id ≠ "3" → other ∈ after) ∧
      (⟨(⟨"3", "t", "v", "d", 1003, 1003⟩ : Post).id, "T", "V", "D",
        (⟨"3", "t", "v", "d", 1003, 1003⟩ : Post).created_at, 9000⟩ : Post) ∈ after ∧
      (∀ p ∈ after, p.id = "3" →
        p.title = "T" ∧ p.video = "V" ∧ p.description = "D" ∧ p.updated_at = 9000) ∧
      ((⟨(⟨"3", "t", "v", "d", 1003, 1003⟩ : Post).id, "T", "V", "D",
        (⟨"3", "t", "v", "d", 1003, 1003⟩ : Post).created_at, 9000⟩ : Post).created_at
        ≤ (⟨(⟨"3", "t", "v", "d", 1003, 1003⟩ : Post).id, "T", "V", "D",
        (⟨"3", "t", "v", "d", 1003, 1003⟩ : Post).created_at, 9000⟩ : Post).updated_at ↔
        (⟨"3", "t", "v", "d", 1003, 1003⟩ : Post).created_at ≤ 9000) :=
  updatePost_rewrites "3" 9000 "T" "V" "D" twelvePosts ⟨"3", "t", "v", "d", 1003, 1003⟩
    (by decide) (by decide) (by decide) (by decide) rfl

/-- C11 as stated fails: an update of the post with id 3, created at 1003, at a clock
reading of 5 leaves that post with `updated_at` 5, less than its `created_at`. -/
theorem updatePost_clock_behind :
    ∃ p ∈ (updatePost "3" 5 ⟨some "T", some "V", some "D"⟩ twelvePosts).2,
      p.id = "3" ∧ p.created_at = 1003 ∧ p.updated_at = 5 ∧ p.updated_at < p.created_at := by
  decide

/-- C12: `update` answers 400 if any of the three fields is missing or empty; with three
non-empty fields it answers 404 exactly when no stored post has the id; in every failing
case the post store is unchanged; on success the body is the view
`{ id, title, video, description, updated_at }`, which has no `created_at`. -/
theorem updatePost_failures (id : String) (now : Nat) (body : PostFields) (store : List Post) :
    ((missingOrEmpty body.title ∨ missingOrEmpty body.video ∨ missingOrEmpty body.description) →
      ∃ message, updatePost id now body store = (Response.error 400 message, store)) ∧
    (∀ title video description : String,
      body = ⟨some title, some video, some description⟩ →
      title ≠ "" → video ≠ "" → description ≠ "" →
      (((∀ p ∈ store, p.id ≠ id) ↔
          ∃ message, (updatePost id now body store).1 = Response.error 404 message) ∧
        ((∀ p ∈ store, p.id ≠ id) →
          ∃ message, updatePost id now body store = (Response.error 404 message, store)) ∧
        ((∃ p ∈ store, p.id = id) →
          (updatePost id now body store).1
            = Response.ok 200 ⟨id, title, video, description, now⟩))) ∧
    (∀ status message, (updatePost id now body store).1 = Response.error status message →
      (updatePost id now body store).2 = store) := by
  refine ⟨?_, ?_, ?_⟩
  · intro hbad
    refine ⟨"Все поля обязательны для заполнения", ?_⟩
    unfold updatePost
    rw [if_pos (validation_rejects body hbad)]
  · intro title video description hbody ht hv hd
    subst hbody
    rw [updatePost_valid id now title video description store ht hv hd]
    refine ⟨⟨?_, ?_⟩, ?_, ?_⟩
    · intro habs
      rw [if_pos ((countP_id_eq_zero_iff id store).mpr habs)]
      exact ⟨_, rfl⟩
    · rintro ⟨message, hmsg⟩
      by_contra hne
      rw [if_neg (fun h0 => hne ((countP_id_eq_zero_iff id store).mp h0))] at hmsg
      simp at hmsg
    · intro habs
      rw [if_pos ((countP_id_eq_zero_iff id store).mpr habs),
        updatedTable_of_absent id now title video description store habs]
      exact ⟨_, rfl⟩
    · rintro ⟨p, hp, hpid⟩
      rw [if_neg (fun h0 => (countP_id_eq_zero_iff id store).mp h0 p hp hpid)]
  · intro status message herr
    unfold updatePost at herr ⊢
    split
    · rfl
    · rename_i hvalid
      rw [if_neg hvalid] at herr
      by_cases h0 : store.countP (fun p => p.id == id) = 0
      · simp only [h0, if_true]
        have habs := (countP_id_eq_zero_iff id store).mp h0
        conv_rhs => rw [← List.map_id store]
        apply List.map_congr_left
        intro p hp
        have : (p.id == id) = false := by simpa using habs p hp
        rw [this]
        rfl
      · simp only [h0, if_false] at herr
        simp at herr

/-- Witness of C12: an update of an id that no stored post has. -/
theorem updatePost_failures_witness :
    ∃ message, updatePost "id-12" 9000 ⟨some "T", some "V", some "D"⟩ twelvePosts
      = (Response.error 404 message, twelvePosts) :=
  ((updatePost_failures "id-12" 9000 ⟨some "T", some "V", some "D"⟩ twelvePosts).2.1
    "T" "V" "D" rfl (by decide) (by decide) (by decide)).2.1 (by decide)

/-- C13: `delete` answers 404 exactly when no stored post has the id, and then leaves the
store unchanged; otherwise it answers 200 and the store afterwards holds exactly the
posts with another id, in their order (one post fewer when ids are unique), and a following
`get` of the id answers 404. -/
theorem deletePost_removes (id : String) (store : List Post) :
    ((∀ p ∈ store, p.id ≠ id) ↔
        ∃ message, (deletePost id store).1 = Response.error 404 message) ∧
      ((∀ p ∈ store, p.id ≠ id) → (deletePost id store).2 = store) ∧
      ((∃ p ∈ store, p.id = id) →
        (∃ message, (deletePost id store).1 = Response.ok 200 message) ∧
        (deletePost id store).2 = store.filter (fun p => decide (p.id ≠ id)) ∧
        (∀ p, p ∈ (deletePost id store).2 ↔ p ∈ store ∧ p.id ≠ id) ∧
        ((store.map Post.id).Nodup → (deletePost id store).2.length + 1 = store.length) ∧
        ∃ message, getPost id (deletePost id store).2 = Response.error 404 message) := by
  have hfilter : store.filter (fun p => !(p.id == id))
      = store.filter (fun p => decide (p.id ≠ id)) := by
    apply List.filter_congr
    intro p _
    by_cases h : p.id = id <;> simp [h]
  refine ⟨⟨?_, ?_⟩, ?_, ?_⟩
  · intro habs
    rw [deletePost_cases, if_pos ((countP_id_eq_zero_iff id store).mpr habs)]
    exact ⟨_, rfl⟩
  · rintro ⟨message, hmsg⟩
    by_contra hne
    rw [deletePost_cases,
      if_neg (fun h0 => hne ((countP_id_eq_zero_iff id store).mp h0))] at hmsg
    simp at hmsg
  · intro habs
    rw [deletePost_cases, if_pos ((countP_id_eq_zero_iff id store).mpr habs)]
    exact filter_id_of_absent id store habs
  · rintro ⟨q, hq, hqid⟩
    have hcount : ¬ store.countP (fun p => p.id == id) = 0 :=
      fun h0 => (countP_id_eq_zero_iff id store).mp h0 q hq hqid
    have hafter : (deletePost id store).2 = store.filter (fun p => decide (p.id ≠ id)) := by
      rw [deletePost_cases, if_neg hcount]
      exact hfilter
    have hmemAfter : ∀ p, p ∈ (deletePost id store).2 ↔ p ∈ store ∧ p.id ≠ id := by
      intro p
      rw [hafter, List.mem_filter, decide_eq_true_eq]
    refine ⟨?_, hafter, hmemAfter, ?_, ?_⟩
    · rw [deletePost_cases, if_neg hcount]
      exact ⟨_, rfl⟩
    · intro hnodup
      rw [hafter]
      have hsplit := List.length_eq_length_filter_add (l := store)
        (fun p : Post => decide (p.id ≠ id))
      have hone : (store.filter (fun p => !decide (p.id ≠ id))).length = 1 := by
        have hcnt : (store.filter (fun p => !decide (p.id ≠ id))).length
            = (store.map Post.id).count id := by
          rw [List.count, List.countP_map, List.countP_eq_length_filter]
          congr 1
          apply List.filter_congr
          intro p _
          by_cases h : p.id = id <;> simp [h]
        rw [hcnt]
        exact List.count_eq_one_of_mem hnodup (List.mem_map.mpr ⟨q, hq, hqid⟩)
      omega
    · refine ⟨"Пост не найден", ?_⟩
      have hnone : (deletePost id store).2.find? (fun p => p.id == id) = none := by
        rw [List.find?_eq_none]
        intro p hp hpid
        exact ((hmemAfter p).mp hp).2 (by simpa using hpid)
      unfold getPost
      rw [hnone]

/-- Witness of C13: deleting the post with id 3 of twelve posts. -/
theorem deletePost_removes_witness :
    ∃ message, getPost "3" (deletePost "3" twelvePosts).2 = Response.error 404 message :=
  ((deletePost_removes "3" twelvePosts).2.2 (by decide)).2.2.2.2

/-! ## Claims on the visit recorder -/

/-- C14: `record` answers 400 and leaves the visit store unchanged if `ip` is missing or
empty; otherwise it answers 201 and appends exactly one visit, after the existing ones
which it does not change, with that `ip`, with `user_agent` and `page` the supplied texts
or the empty text when absent, and with the clock reading as timestamp; it does not
deduplicate: recording the same `ip` twice appends two rows. -/
theorem recordVisit_appends (rowid now : Nat) (body : VisitFields) (visits : List Visit) :
    (missingOrEmpty body.ip →
      ∃ message, recordVisit rowid now body visits = (Response.error 400 message, visits)) ∧
    (∀ ip : String, body.ip = some ip → ip ≠ "" →
      (∃ message visit,
        recordVisit rowid now body visits = (Response.ok 201 message, visits ++ [visit]) ∧
        visit.ip = ip ∧ visit.user_agent = body.userAgent.getD "" ∧
        visit.page = body.page.getD "" ∧ visit.timestamp = now) ∧
      ∀ rowid2 now2 : Nat, ∃ first second : Visit,
        (recordVisit rowid2 now2 body (recordVisit rowid now body visits).2).2
          = visits ++ [first, second] ∧ first.ip = ip ∧ second.ip = ip) := by
  constructor
  · intro hbad
    refine ⟨"IP адрес обязателен", ?_⟩
    unfold recordVisit
    rw [(truthy_eq_false_iff _).mpr hbad]
    rfl
  · intro ip hip hne
    have hrec : ∀ (r n : Nat) (vs : List Visit), recordVisit r n body vs =
        (Response.ok 201 "Посещение записано",
          vs ++ [⟨r, ip, orEmpty body.userAgent, orEmpty body.page, n⟩]) := by
      intro r n vs
      unfold recordVisit
      rw [hip, truthy_some_of_ne _ hne]
      rfl
    have hgetD : ∀ o : Option String, orEmpty o = o.getD "" := by
      intro o
      cases o <;> rfl
    constructor
    · exact ⟨_, _, hrec rowid now visits, rfl, hgetD _, hgetD _, rfl⟩
    · intro rowid2 now2
      refine ⟨⟨rowid, ip, orEmpty body.userAgent, orEmpty body.page, now⟩,
        ⟨rowid2, ip, orEmpty body.userAgent, orEmpty body.page, now2⟩, ?_, rfl, rfl⟩
      rw [hrec rowid now visits, hrec rowid2 now2]
      simp

/-- Witness of C14: a sixth visit from an address without user agent. -/
theorem recordVisit_appends_witness :
    ∃ message visit,
      recordVisit 6 1728100 ⟨some "10.0.0.9", none, some "/a"⟩ fiveVisits
        = (Response.ok 201 message, fiveVisits ++ [visit]) ∧
      visit.ip = "10.0.0.9" ∧
      visit.user_agent = (⟨some "10.0.0.9", none, some "/a"⟩ : VisitFields).userAgent.getD "" ∧
      visit.page = (⟨some "10.0.0.9", none, some "/a"⟩ : VisitFields).page.getD "" ∧
      visit.timestamp = 1728100 :=
  ((recordVisit_appends 6 1728100 ⟨some "10.0.0.9", none, some "/a"⟩ fiveVisits).2
    "10.0.0.9" rfl (by decide)).1

/-! ## Claims on authentication -/

/-- C15: for every request to a protected route (create, update, delete post, analytics,
cleanup, export, verify), whatever the package `jsonwebtoken` does: without a bearer token
(no `Authorization` header, a header without a space, or an empty second piece) the answer
is 401; with a token that `jwt.verify` rejects the answer is 403; in both cases the
handler is not run and the post and visit stores are unchanged. -/
theorem protectedRoute_rejects (jwt : JwtLibrary) (env : Env) (authorization : Option String)
    (req : ProtectedRequest) (store : Store) :
    (truthy (bearerToken authorization) = false →
      ∃ message, protectedRoute jwt env authorization req store
        = (Response.error 401 message, store)) ∧
    (∀ token : String, bearerToken authorization = some token → token ≠ "" →
      jwt.verify token (jwtSecret env.envSecret) (env.jsClock / 1000) = none →
      ∃ message, protectedRoute jwt env authorization req store
        = (Response.error 403 message, store)) ∧
    (authorization = none → truthy (bearerToken authorization) = false) ∧
    (∀ header : String, authorization = some header → ' ' ∉ header.data →
      truthy (bearerToken authorization) = false) := by
  refine ⟨?_, ?_, ?_, ?_⟩
  · intro hno
    refine ⟨"Токен доступа не предоставлен", ?_⟩
    unfold protectedRoute authenticateToken
    simp only [hno]
    rfl
  · intro token htoken hne hverify
    refine ⟨"Недействительный токен", ?_⟩
    unfold protectedRoute authenticateToken
    simp only [htoken, truthy_some_of_ne _ hne]
    show (match (match jwt.verify token (jwtSecret env.envSecret) (env.jsClock / 1000) with
      | none => AuthOutcome.rejected 403 "Недействительный токен"
      | some user => AuthOutcome.accepted user) with
      | AuthOutcome.rejected status message => (Response.error status message, store)
      | AuthOutcome.accepted user => runHandler env user req store) = _
    rw [hverify]
  · intro hnone
    rw [hnone]
    rfl
  · intro header hheader hspace
    rw [hheader]
    exact bearerToken_of_no_space header hspace

/-- Witness of C15: a forged token on the route that deletes a post. -/
theorem protectedRoute_rejects_witness :
    ∃ message, protectedRoute oneTokenJwt firstSecond (some "Bearer forged")
        (ProtectedRequest.deletePost "3") ⟨twelvePosts, []⟩
      = (Response.error 403 message, ⟨twelvePosts, []⟩) :=
  (protectedRoute_rejects oneTokenJwt firstSecond (some "Bearer forged")
    (ProtectedRequest.deletePost "3") ⟨twelvePosts, []⟩).2.1
    "forged" (by decide) (by decide) (by decide)

/-- C16: login with the shared secret answers 200 with a token and role `admin`, and the
route `verify`, given that token as `Bearer` credential under the same `JWT_SECRET` and
before the token expires, answers 200 with `valid: true` and the token's claims, the stores
unchanged; login with any other password, a missing one included, answers 401 with an
error and no token.  The package `jsonwebtoken` is assumed to issue a non-empty token
without spaces and to accept it, under the secret that signed it, until it expires. -/
theorem login_then_verify (jwt : JwtLibrary) (env later : Env) (store : Store)
    (hsecret : later.envSecret = env.envSecret)
    (hvalid : later.jsClock / 1000 < env.jsClock / 1000 + 86400)
    (hshape : ' ' ∉
        (jwt.sign "admin" "admin" (jwtSecret env.envSecret) 86400 (env.jsClock / 1000)).data ∧
      jwt.sign "admin" "admin" (jwtSecret env.envSecret) 86400 (env.jsClock / 1000) ≠ "")
    (hsound : ∀ clock, clock < env.jsClock / 1000 + 86400 →
      jwt.verify
          (jwt.sign "admin" "admin" (jwtSecret env.envSecret) 86400 (env.jsClock / 1000))
          (jwtSecret env.envSecret) clock
        = some ⟨"admin", "admin", env.jsClock / 1000, env.jsClock / 1000 + 86400⟩) :
    (∃ token, login jwt env (some "r@@t00") = Response.ok 200 ⟨token, "admin"⟩ ∧
      protectedRoute jwt later (some ("Bearer " ++ token)) ProtectedRequest.verify store
        = (Response.ok 200 (Body.verified true
            ⟨"admin", "admin", env.jsClock / 1000, env.jsClock / 1000 + 86400⟩), store)) ∧
    (∀ password : Option String, password ≠ some "r@@t00" →
      ∃ message, login jwt env password = Response.error 401 message) := by
  constructor
  · refine ⟨jwt.sign "admin" "admin" (jwtSecret env.envSecret) 86400 (env.jsClock / 1000),
      ?_, ?_⟩
    · unfold login
      rw [if_pos rfl]
    · unfold protectedRoute authenticateToken
      simp only [bearerToken_bearer _ hshape.1, truthy_some_of_ne _ hshape.2, hsecret]
      show (match (match jwt.verify (jwt.sign "admin" "admin" (jwtSecret env.envSecret) 86400
          (env.jsClock / 1000)) (jwtSecret env.envSecret) (later.jsClock / 1000) with
        | none => AuthOutcome.rejected 403 "Недействительный токен"
        | some user => AuthOutcome.accepted user) with
        | AuthOutcome.rejected status message => (Response.error status message, store)
        | AuthOutcome.accepted user => runHandler later user ProtectedRequest.verify store) = _
      rw [hsound _ hvalid]
      rfl
  · intro password hne
    refine ⟨"Неверный пароль", ?_⟩
    unfold login
    rw [if_neg hne]

/-- Witness of C16: the one-token stand-in, login in the first second and verification 59
seconds later. -/
theorem login_then_verify_witness :
    (∃ token, login oneTokenJwt firstSecond (some "r@@t00") = Response.ok 200 ⟨token, "admin"⟩ ∧
      protectedRoute oneTokenJwt { firstSecond with jsClock := 60000 }
          (some ("Bearer " ++ token)) ProtectedRequest.verify ⟨twelvePosts, fiveVisits⟩
        = (Response.ok 200 (Body.verified true
            ⟨"admin", "admin", firstSecond.jsClock / 1000, firstSecond.jsClock / 1000 + 86400⟩),
          ⟨twelvePosts, fiveVisits⟩)) ∧
    (∀ password : Option String, password ≠ some "r@@t00" →
      ∃ message, login oneTokenJwt firstSecond password = Response.error 401 message) :=
  login_then_verify oneTokenJwt firstSecond { firstSecond with jsClock := 60000 }
    ⟨twelvePosts, fiveVisits⟩ rfl (by decide) (by decide)
    (by
      intro clock hclock
      have h : clock < 86401 := hclock
      show (if "h.p.s" = "h.p.s" ∧ "cosmos_secret_key" = "cosmos_secret_key" ∧ clock < 86401
        then some (⟨"admin", "admin", 1, 86401⟩ : Claims) else none) = _
      rw [if_pos ⟨rfl, rfl, h⟩]
      rfl)

/-! ## Claims on export -/

/-- C17: for every store, export with scope `posts` holds the posts only, with scope
`visits` the visits only, with scope `all` both, each time with the export date; the posts
are an ordering of the table by `created_at` descending and the visits an ordering of the
table by `timestamp` descending (descending permutations of the tables); the handler
leaves both tables unchanged. -/
theorem exportData_scopes (now : Nat) (store : Store) :
    ∃ (postsOrdered : List Post) (visitsOrdered : List Visit),
      postsOrdered.Sorted (fun a b => b.created_at ≤ a.created_at) ∧
      postsOrdered.Perm store.posts ∧
      visitsOrdered.Sorted (fun a b => b.timestamp ≤ a.timestamp) ∧
      visitsOrdered.Perm store.visits ∧
      exportData (some "posts") now store
        = Response.ok 200 ⟨some postsOrdered, none, now⟩ ∧
      exportData (some "visits") now store
        = Response.ok 200 ⟨none, some visitsOrdered, now⟩ ∧
      exportData (some "all") now store
        = Response.ok 200 ⟨some postsOrdered, some visitsOrdered, now⟩ ∧
      ∀ (env : Env) (user : Claims) (scope : Option String),
        (runHandler env user (ProtectedRequest.exportData scope) store).2 = store := by
  refine ⟨orderByDesc Post.created_at store.posts, orderByDesc Visit.timestamp store.visits,
    orderByDesc_sorted _ _, orderByDesc_perm _ _, orderByDesc_sorted _ _, orderByDesc_perm _ _,
    rfl, rfl, rfl, ?_⟩
  intro env user scope
  rfl

/-! ## Claims on the uniqueness of post ids -/

/-- C18: in every post store reachable from the empty store by a sequence of `create`,
`update` and `delete`, no two stored posts have the same id, and a `create` that answers
201 returns an id that no stored post had. -/
theorem reachablePosts_unique_ids (store : List Post) (h : ReachablePosts store) :
    (store.map Post.id).Nodup ∧
      ∀ (postId : String) (now : Nat) (body : PostFields) (created : Post),
        (createPost postId now body store).1 = Response.ok 201 created →
          ∀ p ∈ store, p.id ≠ created.id := by
  constructor
  · induction h with
    | empty => exact List.nodup_nil
    | create store postId now body _ ih =>
      rcases createPost_table postId now body store with hsame | ⟨post, hid, hfresh, happ⟩
      · rw [hsame]
        exact ih
      · rw [happ, List.map_append, List.map_singleton, hid]
        refine List.Nodup.append ih (List.nodup_singleton _) ?_
        intro x hx hx2
        rw [List.mem_singleton] at hx2
        obtain ⟨p, hp, hpid⟩ := List.mem_map.mp hx
        exact hfresh p hp (hpid.trans hx2)
    | update store id now body _ ih =>
      rw [updatePost_ids]
      exact ih
    | delete store id _ ih =>
      exact ih.sublist ((deletePost_sublist id store).map Post.id)
  · intro postId now body created hcreated p hp hid
    unfold createPost at hcreated
    split at hcreated
    · simp at hcreated
    · split at hcreated
      · simp at hcreated
      · rename_i hany
        simp only [Response.ok.injEq, true_and] at hcreated
        rw [← hcreated] at hid
        exact hany (List.any_eq_true.mpr ⟨p, hp, by simpa using hid⟩)

/-- Witness of C18: the store after a create, a second create that reuses the id, an
update and a delete of another id. -/
theorem reachablePosts_unique_ids_witness :
    ((deletePost "b" (updatePost "a" 3 ⟨some "T", some "V", some "D"⟩
        (createPost "a" 2 ⟨some "t2", some "v2", some "d2"⟩
          (createPost "a" 1 ⟨some "t", some "v", some "d"⟩ []).2).2).2).2.map Post.id).Nodup ∧
      ∀ (postId : String) (now : Nat) (body : PostFields) (created : Post),
        (createPost postId now body
          (deletePost "b" (updatePost "a" 3 ⟨some "T", some "V", some "D"⟩
            (createPost "a" 2 ⟨some "t2", some "v2", some "d2"⟩
              (createPost "a" 1 ⟨some "t", some "v", some "d"⟩ []).2).2).2).2).1
            = Response.ok 201 created →
          ∀ p ∈ (deletePost "b" (updatePost "a" 3 ⟨some "T", some "V", some "D"⟩
            (createPost "a" 2 ⟨some "t2", some "v2", some "d2"⟩
              (createPost "a" 1 ⟨some "t", some "v", some "d"⟩ []).2).2).2).2,
            p.id ≠ created.id :=
  reachablePosts_unique_ids _
    (ReachablePosts.delete _ "b"
      (ReachablePosts.update _ "a" 3 ⟨some "T", some "V", some "D"⟩
        (ReachablePosts.create _ "a" 2 ⟨some "t2", some "v2", some "d2"⟩
          (ReachablePosts.create [] "a" 1 ⟨some "t", some "v", some "d"⟩
            ReachablePosts.empty))))

/-! ## Claims on the consistency of the pagination -/

/-- C19, as amended: for every post store, page at least 1 and positive limit with
`(page + 1) * limit` below `2 ^ 53`, the listing answers 200, `hasNext` is true exactly when
`currentPage < totalPages`, the listed posts are non-empty exactly when
`currentPage ≤ totalPages`, and when `hasNext` is true the listing of the next page answers
200 with a non-empty list. -/
theorem listPosts_consistent (store : List Post) (page limit : Nat)
    (hp : 1 ≤ page) (hl : 0 < limit) (hb : (page + 1) * limit < 2 ^ 53) :
    ∃ body, listPosts (some (page : Int)) (some (limit : Int)) store = Response.ok 200 body ∧
      (body.pagination.hasNext = true ↔
        body.pagination.currentPage < body.pagination.totalPages) ∧
      (body.posts ≠ [] ↔ body.pagination.currentPage ≤ body.pagination.totalPages) ∧
      (body.pagination.hasNext = true →
        ∃ next, listPosts (some ((page + 1 : Nat) : Int)) (some (limit : Int)) store
            = Response.ok 200 next ∧ next.posts ≠ []) := by
  have hlimit : (0 : Int) < (limit : Int) := by omega
  have hb1 : page * limit < 2 ^ 53 :=
    Nat.lt_of_le_of_lt (Nat.mul_le_mul_right limit (Nat.le_succ page)) hb
  refine ⟨_, listPosts_of_bounded store page limit hp hl hb1, ?_, ?_, ?_⟩
  · show decide ((page : Int) * (limit : Int) < ((store.length : Nat) : Int)) = true ↔
      (page : Int) < ceilDiv ((store.length : Nat) : Int) (limit : Int)
    rw [decide_eq_true_eq, lt_ceilDiv_iff _ _ _ hlimit]
  · show ((orderByDesc Post.created_at store).drop ((page - 1) * limit)).take limit ≠ [] ↔
      (page : Int) ≤ ceilDiv ((store.length : Nat) : Int) (limit : Int)
    rw [take_drop_ne_nil_iff _ _ _ hl, orderByDesc_length]
    have hiff := lt_ceilDiv_iff ((page : Int) - 1) ((store.length : Nat) : Int) _ hlimit
    have hcast : ((page : Int) - 1) * (limit : Int) = (((page - 1) * limit : Nat) : Int) := by
      push_cast [Nat.cast_sub hp]; ring
    rw [hcast] at hiff
    constructor
    · intro h
      have := hiff.mpr (by exact_mod_cast h)
      omega
    · intro h
      have := hiff.mp (by omega)
      exact_mod_cast this
  · intro hnext
    have hlt : page * limit < store.length := by
      have : decide ((page : Int) * (limit : Int) < ((store.length : Nat) : Int)) = true := hnext
      rw [decide_eq_true_eq] at this
      exact_mod_cast this
    refine ⟨_, listPosts_of_bounded store (page + 1) limit (by omega) hl hb, ?_⟩
    show ((orderByDesc Post.created_at store).drop ((page + 1 - 1) * limit)).take limit ≠ []
    rw [take_drop_ne_nil_iff _ _ _ hl, orderByDesc_length, Nat.add_sub_cancel]
    exact hlt

/-- Witness of C19 as amended: twelve posts, limit 5, page 2. -/
theorem listPosts_consistent_witness :
    ∃ body, listPosts (some ((2 : Nat) : Int)) (some ((5 : Nat) : Int)) twelvePosts
        = Response.ok 200 body ∧
      (body.pagination.hasNext = true ↔
        body.pagination.currentPage < body.pagination.totalPages) ∧
      (body.posts ≠ [] ↔ body.pagination.currentPage ≤ body.pagination.totalPages) ∧
      (body.pagination.hasNext = true →
        ∃ next, listPosts (some ((2 + 1 : Nat) : Int)) (some ((5 : Nat) : Int)) twelvePosts
            = Response.ok 200 next ∧ next.posts ≠ []) :=
  listPosts_consistent twelvePosts 2 5 (by decide) (by decide) (by decide)

/-- C19 as stated fails: with page `10 ^ 20` and limit 5 on twelve posts the listing is no
success: it returns neither metadata nor a slice of posts for the claim to relate. -/
theorem listPosts_large_page_no_metadata :
    ¬ ∃ body, listPosts (some (10 ^ 20)) (some 5) twelvePosts = Response.ok 200 body := by
  have herr : listPosts (some (10 ^ 20)) (some 5) twelvePosts
      = Response.error 500 "SQLITE_MISMATCH: datatype mismatch" := by decide
  rintro ⟨body, h⟩
  rw [herr] at h
  exact Response.noConfusion h

end Cosmos
